import Mathlib

/-!
Container-fleet dashboard (`src/frontend/src/App.jsx`).

A shallow embedding of the client-side state of the dashboard component and of
the functions that read and update it, followed by theorems about them.

JavaScript evaluation is modelled in `Except JsError`, so that a `TypeError`
raised by a property access on `undefined` is an observable outcome, and the
values that flow through `||` / `&&` keep their JavaScript truthiness.

`String.prototype.toLowerCase` is a host built-in with full Unicode case
mapping; it is taken as a parameter `toLowerCase : String → String`, so the
results hold for any case mapping.
-/

namespace Dashboard

/-! ## JavaScript values and operators -/

/-- The JavaScript values that occur in the filter callback. -/
inductive JsVal where
  | undefined
  | bool (b : Bool)
  | str (s : String)
deriving DecidableEq, Repr

/-- The exceptions a callback can raise. -/
inductive JsError where
  | typeError
deriving DecidableEq, Repr

/-- Evaluation of a JavaScript expression: a value, or a raised exception. -/
abbrev Js (α : Type) := Except JsError α

instance {α : Type} [DecidableEq α] : DecidableEq (Js α)
  | .ok a, .ok b => if h : a = b then isTrue (by rw [h]) else isFalse (by intro e; cases e; exact h rfl)
  | .error a, .error b => if h : a = b then isTrue (by rw [h]) else isFalse (by intro e; cases e; exact h rfl)
  | .ok _, .error _ => isFalse (by intro e; cases e)
  | .error _, .ok _ => isFalse (by intro e; cases e)

/-- ECMAScript `ToBoolean`. -/
def JsVal.toBoolean : JsVal → Bool
  | .undefined => false
  | .bool b => b
  | .str s => !(s.data.isEmpty)

/-- ECMAScript `ToString` on the values above. -/
def JsVal.toJsString : JsVal → String
  | .undefined => "undefined"
  | .bool true => "true"
  | .bool false => "false"
  | .str s => s

/-- Whether `needle` matches `hay` at its first position. -/
def startsWithChars : List Char → List Char → Bool
  | [], _ => true
  | _ :: _, [] => false
  | a :: as, b :: bs => a == b && startsWithChars as bs

/-- Search `needle` at every position of `hay`, left to right
(the `StringIndexOf` loop of `String.prototype.includes`). -/
def includesChars (needle : List Char) : List Char → Bool
  | [] => startsWithChars needle []
  | c :: cs => startsWithChars needle (c :: cs) || includesChars needle cs

/-- `s.includes(searchString)` on strings. -/
def includes (s searchString : String) : Bool :=
  includesChars searchString.data s.data

/-- `recv.toLowerCase()`: a `TypeError` unless the receiver is a string. -/
def callToLowerCase (toLowerCase : String → String) : JsVal → Js JsVal
  | .str s => pure (.str (toLowerCase s))
  | _ => throw .typeError

/-- `recv.includes(arg)`: a `TypeError` unless the receiver is a string; the
argument goes through `ToString`. -/
def callIncludes : JsVal → JsVal → Js JsVal
  | .str s, arg => pure (.bool (includes s arg.toJsString))
  | _, _ => throw .typeError

/-- Optional chaining `base?.rest`: when `base` is nullish the whole chain is
`undefined` and `rest` is not evaluated. -/
def optionalChain (base : JsVal) (rest : JsVal → Js JsVal) : Js JsVal :=
  match base with
  | .undefined => pure .undefined
  | v => rest v

/-- Short-circuit `a || b`. -/
def jsOr (a : Js JsVal) (b : Unit → Js JsVal) : Js JsVal := do
  let x ← a
  if x.toBoolean then pure x else b ()

/-- Short-circuit `a && b`. -/
def jsAnd (a : Js JsVal) (b : Unit → Js JsVal) : Js JsVal := do
  let x ← a
  if x.toBoolean then b () else pure x

/-- `Array.prototype.filter`: call the callback on each element in index
order and keep the elements whose result is truthy. -/
def arrayFilter {α : Type} (cb : α → Js JsVal) : List α → Js (List α)
  | [] => pure []
  | x :: xs => do
    let selected ← cb x
    let kept ← arrayFilter cb xs
    pure (if selected.toBoolean then x :: kept else kept)

/-! ## Data model -/

/-- A container record of `GET /api/containers`. The optional fields are
`none` when the record has no such property (or has it `null`). -/
structure Container where
  id : String
  full_id : String
  state : String
  status : String
  image : String
  template_id : String
  template_name : Option String
  tenant_id : Option String
  url : Option String
deriving DecidableEq, Repr

/-- Reading an optional string property. -/
def getProp : Option String → JsVal
  | none => .undefined
  | some s => .str s

/-! ## The filter (`filteredContainers`, lines 223-234) -/

/-- The `matchesSearch` expression of the filter callback. -/
def matchesSearch (toLowerCase : String → String) (searchTerm : String)
    (container : Container) : Js JsVal :=
  jsOr (pure (.bool (decide (searchTerm = "")))) fun _ =>
  jsOr (do
      let lid ← callToLowerCase toLowerCase (.str container.id)
      let lt ← callToLowerCase toLowerCase (.str searchTerm)
      callIncludes lid lt) fun _ =>
  jsOr (optionalChain (getProp container.template_name) fun v => do
      let lv ← callToLowerCase toLowerCase v
      let lt ← callToLowerCase toLowerCase (.str searchTerm)
      callIncludes lv lt) fun _ =>
  optionalChain (getProp container.tenant_id) fun v => do
      let lv ← callToLowerCase toLowerCase v
      let lt ← callToLowerCase toLowerCase (.str searchTerm)
      callIncludes lv lt

/-- The `matchesStatus` expression of the filter callback. -/
def matchesStatus (statusFilter : String) (container : Container) : Js JsVal :=
  jsOr (pure (.bool (decide (statusFilter = "all")))) fun _ =>
  pure (.bool (decide (container.state = statusFilter)))

/-- The `matchesTemplate` expression of the filter callback. -/
def matchesTemplate (templateFilter : String) (container : Container) : Js JsVal :=
  jsOr (pure (.bool (decide (templateFilter = "all")))) fun _ =>
  pure (.bool (decide (container.template_id = templateFilter)))

/-- The callback passed to `containers.filter`. -/
def filterCallback (toLowerCase : String → String)
    (searchTerm statusFilter templateFilter : String) (container : Container) :
    Js JsVal := do
  let ms ← matchesSearch toLowerCase searchTerm container
  let mst ← matchesStatus statusFilter container
  let mt ← matchesTemplate templateFilter container
  jsAnd (jsAnd (pure ms) fun _ => pure mst) fun _ => pure mt

/-- The derived list `filteredContainers` (the spec's `visible`). -/
def filteredContainers (toLowerCase : String → String) (containers : List Container)
    (searchTerm statusFilter templateFilter : String) : Js (List Container) :=
  arrayFilter (filterCallback toLowerCase searchTerm statusFilter templateFilter)
    containers

/-! ## The filter as the specification words it -/

/-- Spec wording: `t` is a substring of `s`. -/
def SubstringOf (t s : String) : Prop := t.data <:+: s.data

instance (t s : String) : Decidable (SubstringOf t s) := by
  unfold SubstringOf; infer_instance

/-- Spec wording: case-insensitive substring match against an optional field;
a missing field does not match. -/
def SpecFieldMatches (toLowerCase : String → String) (t : String) :
    Option String → Prop
  | none => False
  | some v => SubstringOf (toLowerCase t) (toLowerCase v)

instance (toLowerCase : String → String) (t : String) (o : Option String) :
    Decidable (SpecFieldMatches toLowerCase t o) := by
  cases o <;> unfold SpecFieldMatches <;> infer_instance

/-- Spec wording: the substring part of the search test (short id, template
name or tenant id). -/
def SpecSubstringMatch (toLowerCase : String → String) (t : String)
    (c : Container) : Prop :=
  SubstringOf (toLowerCase t) (toLowerCase c.id) ∨
    SpecFieldMatches toLowerCase t c.template_name ∨
    SpecFieldMatches toLowerCase t c.tenant_id

instance (toLowerCase : String → String) (t : String) (c : Container) :
    Decidable (SpecSubstringMatch toLowerCase t c) := by
  unfold SpecSubstringMatch; infer_instance

/-- Spec wording: a container passes if all three tests hold. -/
def SpecPasses (toLowerCase : String → String) (t s f : String)
    (c : Container) : Prop :=
  (t = "" ∨ SpecSubstringMatch toLowerCase t c) ∧
    (s = "all" ∨ c.state = s) ∧ (f = "all" ∨ c.template_id = f)

instance (toLowerCase : String → String) (t s f : String) (c : Container) :
    Decidable (SpecPasses toLowerCase t s f c) := by
  unfold SpecPasses; infer_instance

/-- ASCII lower-casing, used to instantiate `toLowerCase` on concrete inputs. -/
def asciiLower (s : String) : String := ⟨s.data.map Char.toLower⟩

def exC1 : Container :=
  { id := "c1", full_id := "c1full", state := "exited", status := "Exited (0)",
    image := "img", template_id := "app_template", template_name := some "App",
    tenant_id := none, url := none }

def exC2 : Container :=
  { id := "c2", full_id := "c2full", state := "running", status := "Up",
    image := "img", template_id := "note_template", template_name := none,
    tenant_id := some "Acme", url := some "http://localhost:1" }

/-! ## Dashboard state -/

/-- `set.has(x)` on a JavaScript `Set` of strings, kept as the list of its
members in insertion order. -/
def setHas (set : List String) (x : String) : Bool := set.contains x

/-- `set.add(x)`: appends `x` unless it is already a member. -/
def setAdd (set : List String) (x : String) : List String :=
  if setHas set x then set else set ++ [x]

/-- `set.delete(x)`. -/
def setDelete (set : List String) (x : String) : List String :=
  set.filter fun y => !(y == x)

/-- `new Set(iterable)`: adds the elements one by one. -/
def setFrom (xs : List String) : List String := xs.foldl setAdd []

/-- A property value of a JSON response body: a primitive (`undefined` when
the property is missing or `null`), or an object or array, kept as its JSON
text. -/
inductive JsonVal where
  | prim (v : JsVal)
  | object (json : String)
deriving DecidableEq, Repr

/-- ECMAScript `ToBoolean`: an object is truthy. -/
def JsonVal.toBoolean : JsonVal → Bool
  | .prim v => v.toBoolean
  | .object _ => true

/-- The value cached for a container's inspect panel: `data.details`, or the
object `{ error: msg }`. -/
inductive DetailsVal where
  | details (json : JsonVal)
  | error (msg : JsVal)
deriving DecidableEq, Repr

/-- The `useState` cells of `App` that the container tab reads and writes.
Plain objects used as maps (`showLogs`, `containerLogs`, ...) are kept as
association lists in key insertion order. The cells of the other two tabs
(`templates`, `selectedTemplate`, `loading`, `activeTab`) are read or written
by none of the functions below and are left out. -/
structure DashboardState where
  message : String
  containers : List Container
  searchTerm : String
  statusFilter : String
  templateFilter : String
  selectedContainers : List String
  showLogs : List (String × Bool)
  containerLogs : List (String × JsVal)
  containerDetails : List (String × DetailsVal)
  showDetails : List (String × Bool)
  bulkAction : String
deriving DecidableEq, Repr

/-- The initial values given to `useState` (lines 4-18). -/
def initialState : DashboardState :=
  { message := "", containers := [], searchTerm := "", statusFilter := "all",
    templateFilter := "all", selectedContainers := [], showLogs := [],
    containerLogs := [], containerDetails := [], showDetails := [],
    bulkAction := "" }

/-- The own property `key` of an object used as a map; `none` when the object
has no such own property. -/
def objGet {α : Type} (obj : List (String × α)) (key : String) : Option α :=
  (obj.find? fun kv => kv.1 == key).map Prod.snd

/-- The property names of `Object.prototype`, which every object literal
inherits. -/
def objectPrototypeKeys : List String :=
  ["constructor", "__defineGetter__", "__defineSetter__", "hasOwnProperty",
    "__lookupGetter__", "__lookupSetter__", "isPrototypeOf", "propertyIsEnumerable",
    "toString", "valueOf", "__proto__", "toLocaleString"]

/-- What the expression `obj[key]` evaluates to: the value of an own property,
a value inherited from `Object.prototype` (a function, or the prototype object
for `__proto__`), or `undefined`. -/
inductive Looked (α : Type) where
  | own (v : α)
  | inherited
  | undefined
deriving DecidableEq, Repr

/-- The expression `obj[key]` on an object literal used as a map. -/
def objRead {α : Type} (obj : List (String × α)) (key : String) : Looked α :=
  match objGet obj key with
  | some v => .own v
  | none => if key ∈ objectPrototypeKeys then .inherited else .undefined

/-- Whether `showLogs[id]` / `showDetails[id]` is truthy; an inherited
function or object is. -/
def isShown (obj : List (String × Bool)) (key : String) : Bool :=
  match objRead obj key with
  | .own b => b
  | .inherited => true
  | .undefined => false

/-! ## Polling (`fetchContainers`, lines 28-36) -/

/-- The parsed JSON object of a response body, as far as the dashboard reads
it: the `containers` property (`none` when absent or `null`) and the `error`
property. -/
structure ResponseData where
  containers : Option (List Container)
  error : Option String
deriving DecidableEq, Repr

/-- What `await fetch(...)` followed by `await res.json()` can do:
`fetch` rejects (no response was obtained), `res.json()` rejects (the body is
not JSON), or a body is obtained, with `res.ok` telling a 2xx status. -/
inductive FetchOutcome where
  | fetchRejected
  | jsonRejected (ok : Bool)
  | response (ok : Bool) (data : ResponseData)
deriving DecidableEq, Repr

/-- The `try` block of `fetchContainers`: the two awaits, then
`setContainers(data.containers || [])`. -/
def fetchContainersTry (st : DashboardState) : FetchOutcome → Js DashboardState
  | .fetchRejected => throw .typeError
  | .jsonRejected _ => throw .typeError
  | .response _ data =>
    pure { st with containers := match data.containers with
                                 | some l => l
                                 | none => [] }

/-- The function `fetchContainers`: the `catch` block only logs to the
console. -/
def fetchContainers (st : DashboardState) (outcome : FetchOutcome) : DashboardState :=
  match fetchContainersTry st outcome with
  | .ok st1 => st1
  | .error _ => st

/-! ## Selection (lines 186-202, 433) -/

/-- The function `toggleContainerSelection`. -/
def toggleContainerSelection (st : DashboardState) (containerID : String) :
    DashboardState :=
  let newSelected := st.selectedContainers
  let newSelected :=
    if setHas newSelected containerID then setDelete newSelected containerID
    else setAdd newSelected containerID
  { st with selectedContainers := newSelected }

/-- The list `filteredContainers` of the current render. -/
def currentFiltered (toLowerCase : String → String) (st : DashboardState) :
    Js (List Container) :=
  filteredContainers toLowerCase st.containers st.searchTerm st.statusFilter
    st.templateFilter

/-- The function `selectAllContainers`. -/
def selectAllContainers (toLowerCase : String → String) (st : DashboardState) :
    Js DashboardState := do
  let fc ← currentFiltered toLowerCase st
  if st.selectedContainers.length = fc.length then
    pure { st with selectedContainers := [] }
  else
    pure { st with selectedContainers := setFrom (fc.map fun c => c.full_id) }

/-- The "Clear Selection" button: `setSelectedContainers(new Set())`. -/
def clearSelection (st : DashboardState) : DashboardState :=
  { st with selectedContainers := [] }

/-! ## Bulk actions (`handleBulkAction`, lines 160-184) -/

inductive HttpMethod where
  | GET
  | POST
  | DELETE
deriving DecidableEq, Repr

/-- A call of `fetch`: method and path. -/
structure Request where
  method : HttpMethod
  path : String
deriving DecidableEq, Repr

/-- The callback mapped over the selection in `handleBulkAction`. -/
def bulkRequest (bulkAction containerID : String) : Request :=
  if bulkAction = "delete" then
    { method := .DELETE, path := "/api/launch/" ++ containerID }
  else
    { method := .POST, path := "/api/containers/" ++ containerID ++ "/" ++ bulkAction }

/-- What a run of `handleBulkAction` does: the `fetch` calls it starts, the
state it leaves, and whether it ends by calling `fetchContainers()`. -/
structure BulkResult where
  requests : List Request
  state : DashboardState
  refetch : Bool
deriving DecidableEq, Repr

/-- The function `handleBulkAction`. `confirmAnswer` is what `confirm(...)`
returns; `fulfils r` tells whether the promise of `fetch` for request `r`
fulfils (with any HTTP status) or rejects. `Promise.all` fulfils when every
promise does. -/
def handleBulkAction (st : DashboardState) (confirmAnswer : Bool)
    (fulfils : Request → Bool) : BulkResult :=
  if st.bulkAction = "" ∨ st.selectedContainers.length = 0 then
    { requests := [], state := st, refetch := false }
  else if !confirmAnswer then
    { requests := [], state := st, refetch := false }
  else
    let promises := st.selectedContainers.map (bulkRequest st.bulkAction)
    if promises.all fulfils then
      { requests := promises,
        state := { st with
          message := "Bulk " ++ st.bulkAction ++ " completed for " ++
            toString st.selectedContainers.length ++ " containers",
          selectedContainers := [],
          bulkAction := "" },
        refetch := true }
    else
      { requests := promises,
        state := { st with message := "Failed to complete bulk " ++ st.bulkAction },
        refetch := false }

/-! ## Sessions: sequences of events on the container tab -/

/-- The events of the container tab that read or write the containers list or
the selection, with the inputs that feed them. -/
inductive Action where
  | poll (outcome : FetchOutcome)
  | toggleSelection (containerID : String)
  | selectAll
  | clearSelection
  | chooseBulkAction (action : String)
  | executeBulk (confirmAnswer : Bool) (fulfils : Request → Bool)
  | typeSearch (searchTerm : String)
  | chooseStatus (statusFilter : String)
  | chooseTemplate (templateFilter : String)

/-- The values of the bulk-action `<select>` (lines 411-415). -/
def bulkOptions : List String := ["", "start", "stop", "restart", "delete"]

/-- One event. `none` when the page does not offer the event in this state:
a checkbox exists only for a container of the filtered list, and the bulk bar
(action select, Execute, Clear Selection) is rendered only while the selection
is non-empty, Execute being disabled while no action is chosen. -/
def applyAction (toLowerCase : String → String) (st : DashboardState) :
    Action → Option DashboardState
  | .poll outcome => some (fetchContainers st outcome)
  | .toggleSelection containerID =>
    match currentFiltered toLowerCase st with
    | .ok fc =>
      if (fc.map fun c => c.full_id).contains containerID then
        some (toggleContainerSelection st containerID)
      else none
    | .error _ => none
  | .selectAll =>
    match selectAllContainers toLowerCase st with
    | .ok st1 => some st1
    | .error _ => none
  | .clearSelection =>
    if 0 < st.selectedContainers.length then some (clearSelection st) else none
  | .chooseBulkAction action =>
    if 0 < st.selectedContainers.length ∧ action ∈ bulkOptions then
      some { st with bulkAction := action }
    else none
  | .executeBulk confirmAnswer fulfils =>
    if 0 < st.selectedContainers.length ∧ st.bulkAction ≠ "" then
      some (handleBulkAction st confirmAnswer fulfils).state
    else none
  | .typeSearch searchTerm => some { st with searchTerm := searchTerm }
  | .chooseStatus statusFilter => some { st with statusFilter := statusFilter }
  | .chooseTemplate templateFilter => some { st with templateFilter := templateFilter }

/-- A sequence of events, from left to right. -/
def runActions (toLowerCase : String → String) :
    DashboardState → List Action → Option DashboardState
  | st, [] => some st
  | st, a :: as =>
    match applyAction toLowerCase st a with
    | some st1 => runActions toLowerCase st1 as
    | none => none

/-- A state the session can be in: the result of some sequence of events from
the initial state. -/
def Reachable (toLowerCase : String → String) (st : DashboardState) : Prop :=
  ∃ actions, runActions toLowerCase initialState actions = some st

/-- The keys of a snapshot: the `full_id`s of its containers. -/
def keys (containers : List Container) : List String :=
  containers.map fun c => c.full_id

/-- The selection-subset property: every selected id is the `full_id` of a
container of the current list. -/
def SelectionWithinContainers (st : DashboardState) : Prop :=
  ∀ x ∈ st.selectedContainers, x ∈ keys st.containers

/-! ## The merge as the specification words it, and sample sessions -/

/-- Spec wording (4.2 step 2): the selection after a merge is the selection
before it intersected with the keys of the merged snapshot. -/
def SelectionIsIntersection (before after : List String)
    (snapshot : List Container) : Prop :=
  ∀ x, x ∈ after ↔ (x ∈ before ∧ x ∈ keys snapshot)

/-- The body `{ containers: l }` of a fleet snapshot. -/
def snapshotBody (l : List Container) : ResponseData :=
  { containers := some l, error := none }

/-- The body `{ error: e }` of a failure response. -/
def errorBody (e : String) : ResponseData :=
  { containers := none, error := some e }

/-- The dashboard showing `[c1]` with `c1` selected. -/
def exSelected : DashboardState :=
  { initialState with containers := [exC1], selectedContainers := ["c1full"] }

/-- A session: the fleet `[c1]` is polled, `c1` is ticked, and the next poll
returns an empty fleet. -/
def staleTrace : List Action :=
  [.poll (.response true (snapshotBody [exC1])), .toggleSelection "c1full",
    .poll (.response true (snapshotBody []))]

/-- The state `staleTrace` ends in. -/
def staleState : DashboardState :=
  { initialState with containers := [], selectedContainers := ["c1full"] }

/-- A session in which no poll removes a selected container. -/
def keptTrace : List Action :=
  [.poll (.response true (snapshotBody [exC1, exC2])), .toggleSelection "c2full",
    .poll (.response true (snapshotBody [exC2])), .chooseBulkAction "stop"]

/-- The state `keptTrace` ends in. -/
def keptState : DashboardState :=
  { initialState with containers := [exC2], selectedContainers := ["c2full"],
                      bulkAction := "stop" }

/-- The dashboard showing `[c1, c2]`, both selected, with the logs panel of
`c1` and the details panel of `c2` open. -/
def exExpanded : DashboardState :=
  { initialState with containers := [exC1, exC2],
                      selectedContainers := ["c1full", "c2full"],
                      showLogs := [("c1full", true)],
                      showDetails := [("c2full", true)] }

/-- The event `a`, if it is a poll, leaves every selected id among the keys of
the containers list it installs. -/
def PollKeepsSelected (st : DashboardState) : Action → Prop
  | .poll outcome =>
    ∀ x ∈ st.selectedContainers, x ∈ keys (fetchContainers st outcome).containers
  | _ => True

/-- Every poll of the session keeps the then-selected ids (see
`PollKeepsSelected`). -/
def TraceKeepsSelected (toLowerCase : String → String) :
    DashboardState → List Action → Prop
  | _, [] => True
  | st, a :: as =>
    PollKeepsSelected st a ∧
      match applyAction toLowerCase st a with
      | some st1 => TraceKeepsSelected toLowerCase st1 as
      | none => True

/-! ## Single-container actions (`deleteContainer`, `controlContainer`, lines 76-110) -/

/-- The four actions a container card offers (buttons at lines 577, 596, 610
and 626), which are also the actions of the bulk select. -/
inductive LifecycleAction where
  | start
  | stop
  | restart
  | delete
deriving DecidableEq, Repr

/-- The string that stands for the action in the code. -/
def LifecycleAction.name : LifecycleAction → String
  | .start => "start"
  | .stop => "stop"
  | .restart => "restart"
  | .delete => "delete"

/-- Template-literal interpolation of a string property that may be missing. -/
def interpolate (v : Option String) : String := (getProp v).toJsString

/-- The longest run of leading characters that fits in `n` UTF-16 code units:
a character below U+10000 is one code unit, any other is a surrogate pair. -/
def takeCodeUnits : Nat → List Char → List Char
  | _, [] => []
  | n, c :: cs =>
    if c.toNat < 65536 then
      if 1 ≤ n then c :: takeCodeUnits (n - 1) cs else []
    else
      if 2 ≤ n then c :: takeCodeUnits (n - 2) cs else []

/-- The call `containerID.substring(0, 12)`: the first twelve UTF-16 code
units. Container ids are hexadecimal, one code unit per character; when the
twelfth code unit is the first half of a surrogate pair, the lone half that the
code keeps is not a character and is left out here. -/
def substring12 (containerID : String) : String :=
  ⟨takeCodeUnits 12 containerID.data⟩

/-- The request of `deleteContainer` (line 82). -/
def deleteRequest (containerID : String) : Request :=
  { method := .DELETE, path := "/api/launch/" ++ containerID }

/-- The request of `controlContainer` (line 98). -/
def controlRequest (containerID action : String) : Request :=
  { method := .POST, path := "/api/containers/" ++ containerID ++ "/" ++ action }

/-- What a run of `deleteContainer` or `controlContainer` does: the `fetch`
calls it starts, the state it leaves, and whether it calls
`fetchContainers()`. -/
structure ActionResult where
  requests : List Request
  state : DashboardState
  refetch : Bool
deriving DecidableEq, Repr

/-- The function `deleteContainer`. `confirmAnswer` is what `confirm(...)`
returns, `outcome` what the two awaits produce. -/
def deleteContainer (st : DashboardState) (containerID : String)
    (confirmAnswer : Bool) (outcome : FetchOutcome) : ActionResult :=
  if !confirmAnswer then
    { requests := [], state := st, refetch := false }
  else
    match outcome with
    | .response ok data =>
      if ok then
        { requests := [deleteRequest containerID],
          state := { st with message :=
            "Container " ++ substring12 containerID ++ " deleted successfully" },
          refetch := true }
      else
        { requests := [deleteRequest containerID],
          state := { st with message :=
            "Failed to delete container: " ++ interpolate data.error },
          refetch := false }
    | _ =>
      { requests := [deleteRequest containerID],
        state := { st with message := "Failed to delete container" },
        refetch := false }

/-- The function `controlContainer`. -/
def controlContainer (st : DashboardState) (containerID action : String)
    (outcome : FetchOutcome) : ActionResult :=
  match outcome with
  | .response ok data =>
    if ok then
      { requests := [controlRequest containerID action],
        state := { st with message := "Container " ++ action ++ "ed successfully" },
        refetch := true }
    else
      { requests := [controlRequest containerID action],
        state := { st with message :=
          "Failed to " ++ action ++ " container: " ++ interpolate data.error },
        refetch := false }
  | _ =>
    { requests := [controlRequest containerID action],
      state := { st with message := "Failed to " ++ action ++ " container" },
      refetch := false }

/-- What the button of an action on the card of a container runs: Delete calls
`deleteContainer(container.full_id)`, the other three call
`controlContainer(container.full_id, name)`. -/
def clickAction (st : DashboardState) (containerID : String) (a : LifecycleAction)
    (confirmAnswer : Bool) (outcome : FetchOutcome) : ActionResult :=
  match a with
  | .delete => deleteContainer st containerID confirmAnswer outcome
  | .start => controlContainer st containerID "start" outcome
  | .stop => controlContainer st containerID "stop" outcome
  | .restart => controlContainer st containerID "restart" outcome

/-- The `fetch` calls a click starts before its first `await`: they depend on
the container, the action and the answer to `confirm`, and on nothing else. -/
def clickRequests (containerID : String) (a : LifecycleAction)
    (confirmAnswer : Bool) : List Request :=
  (clickAction initialState containerID a confirmAnswer .fetchRejected).requests

/-- Whether the promise of `fetch` fulfils: it does for every response, with
any status and any body; it rejects when no response is obtained. -/
def fetchFulfils : FetchOutcome → Bool
  | .fetchRejected => false
  | _ => true

/-! ## Calls in flight -/

/-- The dashboard together with the single-container handler calls that have
started their `fetch` and not resumed yet (container id and action name, in
start order) and a log of every request handed to `fetch`. -/
structure Session where
  state : DashboardState
  inFlight : List (String × String)
  sent : List Request
deriving DecidableEq, Repr

/-- The session at mount. -/
def initialSession : Session :=
  { state := initialState, inFlight := [], sent := [] }

/-- Spec wording: `pendingAction[id]`, the action in flight on a container.
The component keeps no such map; it is read off the calls in flight. -/
def pendingAction (s : Session) (containerID : String) : Option String :=
  (s.inFlight.find? fun call => call.1 == containerID).map Prod.snd

/-- A click on an action button: the handler runs up to its first `await`. -/
def invokeAction (s : Session) (containerID : String) (a : LifecycleAction)
    (confirmAnswer : Bool) : Session :=
  let requests := clickRequests containerID a confirmAnswer
  { state := s.state,
    inFlight := s.inFlight ++ requests.map fun _ => (containerID, a.name),
    sent := s.sent ++ requests }

/-- The `fetch` of a call in flight settles and the handler runs to its end. -/
def settleAction (s : Session) (containerID : String) (a : LifecycleAction)
    (outcome : FetchOutcome) : Session :=
  { state := (clickAction s.state containerID a true outcome).state,
    inFlight := s.inFlight.erase (containerID, a.name),
    sent := s.sent }

/-- The session in which Stop was clicked on container `abc123` and the
request has not settled. -/
def exPendingStop : Session := invokeAction initialSession "abc123" .stop true

/-! ## Rendered panels (lines 676 and 711) -/

/-- The ids whose logs panel is rendered: the containers of the filtered list
with a truthy `showLogs[container.full_id]`. -/
def renderedLogsPanels (toLowerCase : String → String) (st : DashboardState) :
    Js (List String) := do
  let fc ← currentFiltered toLowerCase st
  pure ((fc.filter fun c => isShown st.showLogs c.full_id).map fun c => c.full_id)

/-- The ids whose details panel is rendered. -/
def renderedDetailsPanels (toLowerCase : String → String) (st : DashboardState) :
    Js (List String) := do
  let fc ← currentFiltered toLowerCase st
  pure ((fc.filter fun c => isShown st.showDetails c.full_id).map fun c => c.full_id)

/-! ## Sample bulk runs -/

/-- The dashboard with containers `a` and `b` selected and the bulk action
"delete" chosen. -/
def exBulk : DashboardState :=
  { initialState with selectedContainers := ["a", "b"], bulkAction := "delete" }

/-- Per-request outcomes in which the request for `a` gets a 2xx response and
the request for `b` a 500 response with an error body. -/
def exBackendFailure (r : Request) : FetchOutcome :=
  if r.path = "/api/launch/a" then .response true { containers := none, error := none }
  else .response false (errorBody "no such container")

/-- Per-request outcomes in which the request for `a` gets a 2xx response and
the request for `b` obtains no response. -/
def exTransportFailure (r : Request) : FetchOutcome :=
  if r.path = "/api/launch/a" then .response true { containers := none, error := none }
  else .fetchRejected

/-! ## Message banner (lines 268-278) -/

/-- The test that picks the success colours and icon of the message banner:
`message.includes('successfully') || message.includes('launched')`. Otherwise
the banner has the failure colours and icon. -/
def bannerIsSuccess (message : String) : Bool :=
  includes message "successfully" || includes message "launched"

/-- Whether the banner is rendered at all (line 269, `message && (...)`): only
for a non-empty message. -/
def bannerShown (message : String) : Bool :=
  (JsVal.str message).toBoolean

/-! ## Poll loop (`useEffect`, lines 21-26) -/

/-- The request of `fetchContainers` (line 30). -/
def containersRequest : Request := { method := .GET, path := "/api/containers" }

/-- The request of `fetchTemplates` (line 40). -/
def templatesRequest : Request := { method := .GET, path := "/api/templates" }

/-- The dashboard together with the number of `fetchContainers` calls that the
poll loop has started and that have not settled, whether the interval is still
installed, and the requests the loop has handed to `fetch`, in order. -/
structure PollLoop where
  state : DashboardState
  pollsInFlight : Nat
  intervalActive : Bool
  sent : List Request
deriving DecidableEq, Repr

/-- The effect at mount: `fetchContainers()` and `fetchTemplates()` are called
once each and `setInterval(fetchContainers, 5000)` is installed. -/
def mount : PollLoop :=
  { state := initialState, pollsInFlight := 1, intervalActive := true,
    sent := [containersRequest, templatesRequest] }

/-- The interval fires: the timer calls `fetchContainers`, and nothing else. A
cleared interval does not fire. -/
def tick (p : PollLoop) : PollLoop :=
  if p.intervalActive then
    { p with pollsInFlight := p.pollsInFlight + 1,
             sent := p.sent ++ [containersRequest] }
  else p

/-- One of the polls in flight settles with `outcome`. -/
def settlePoll (p : PollLoop) (outcome : FetchOutcome) : PollLoop :=
  if 0 < p.pollsInFlight then
    { p with state := fetchContainers p.state outcome,
             pollsInFlight := p.pollsInFlight - 1 }
  else p

/-- The cleanup of the effect: `clearInterval(interval)`. -/
def unmount (p : PollLoop) : PollLoop :=
  { p with intervalActive := false }

/-- What can happen to the poll loop after mount. -/
inductive LoopEvent where
  | tick
  | settle (outcome : FetchOutcome)
  | unmount
deriving DecidableEq, Repr

/-- One event of the poll loop. -/
def stepLoop (p : PollLoop) : LoopEvent → PollLoop
  | .tick => tick p
  | .settle outcome => settlePoll p outcome
  | .unmount => unmount p

/-- A sequence of events of the poll loop, from left to right. -/
def runLoop (p : PollLoop) (events : List LoopEvent) : PollLoop :=
  events.foldl stepLoop p

/-- Spec wording (4.1): no two polls of the loop are in flight at once. -/
def NoOverlappingPolls (p : PollLoop) : Prop := p.pollsInFlight ≤ 1

/-! ## Logs and details panels (lines 112-158, 676-745) -/

/-- The body of `GET /api/containers/{id}/logs`, as far as it is read. -/
structure LogsData where
  logs : Option String
  error : Option String
deriving DecidableEq, Repr

/-- The body of `GET /api/containers/{id}/inspect`, as far as it is read;
`details` is the value of the property, `undefined` when it is missing. -/
structure DetailsData where
  details : JsonVal
  error : Option String
deriving DecidableEq, Repr

/-- What the two awaits of a panel fetch produce, for a body of type `β`. -/
inductive PanelOutcome (β : Type) where
  | fetchRejected
  | jsonRejected (ok : Bool)
  | response (ok : Bool) (data : β)
deriving DecidableEq, Repr

/-- The object `{ ...obj, [key]: v }`: an own key keeps its place and takes
the new value, a new key comes last. -/
def objSet {α : Type} (obj : List (String × α)) (key : String) (v : α) :
    List (String × α) :=
  if obj.any fun kv => kv.1 == key then
    obj.map fun kv => if kv.1 == key then (key, v) else kv
  else obj ++ [(key, v)]

/-- The request of `fetchContainerLogs` (line 114). -/
def logsRequest (containerID : String) : Request :=
  { method := .GET, path := "/api/containers/" ++ containerID ++ "/logs" }

/-- The request of `fetchContainerDetails` (line 129). -/
def detailsRequest (containerID : String) : Request :=
  { method := .GET, path := "/api/containers/" ++ containerID ++ "/inspect" }

/-- The function `fetchContainerLogs` up to its first `await`: the request is
handed to `fetch` and no setter has run. This is all that a click on the
Refresh button of the logs panel does at the time of the click. -/
def fetchContainerLogsStart (st : DashboardState) (containerID : String) :
    DashboardState × Request :=
  (st, logsRequest containerID)

/-- The function `fetchContainerLogs` from the point where its awaits have
produced `outcome`. -/
def fetchContainerLogs (st : DashboardState) (containerID : String)
    (outcome : PanelOutcome LogsData) : DashboardState :=
  match outcome with
  | .response ok data =>
    if ok then
      { st with
        containerLogs := objSet st.containerLogs containerID (getProp data.logs) }
    else
      { st with
        containerLogs := objSet st.containerLogs containerID
          (.str ("Error: " ++ interpolate data.error)) }
  | _ =>
    { st with
      containerLogs := objSet st.containerLogs containerID (.str "Failed to fetch logs") }

/-- The function `fetchContainerDetails` up to its first `await`. -/
def fetchContainerDetailsStart (st : DashboardState) (containerID : String) :
    DashboardState × Request :=
  (st, detailsRequest containerID)

/-- The function `fetchContainerDetails` from the point where its awaits have
produced `outcome`. -/
def fetchContainerDetails (st : DashboardState) (containerID : String)
    (outcome : PanelOutcome DetailsData) : DashboardState :=
  match outcome with
  | .response ok data =>
    if ok then
      { st with
        containerDetails :=
          objSet st.containerDetails containerID (.details data.details) }
    else
      { st with
        containerDetails :=
          objSet st.containerDetails containerID (.error (getProp data.error)) }
  | _ =>
    { st with
      containerDetails :=
        objSet st.containerDetails containerID
          (.error (.str "Failed to fetch details")) }

/-- Truthiness of `containerLogs[containerID]`. -/
def cachedLogsTruthy (st : DashboardState) (containerID : String) : Bool :=
  match objRead st.containerLogs containerID with
  | .own v => v.toBoolean
  | .inherited => true
  | .undefined => false

/-- Truthiness of `containerDetails[containerID]`; an `{ error }` object is
truthy. -/
def cachedDetailsTruthy (st : DashboardState) (containerID : String) : Bool :=
  match objRead st.containerDetails containerID with
  | .own (.details v) => v.toBoolean
  | .own (.error _) => true
  | .inherited => true
  | .undefined => false

/-- What a run of `toggleLogs` or `toggleDetails` does: the state it leaves and
whether it calls the fetch of the panel content. -/
structure ToggleResult where
  state : DashboardState
  fetches : Bool
deriving DecidableEq, Repr

/-- The function `toggleLogs`. -/
def toggleLogs (st : DashboardState) (containerID : String) : ToggleResult :=
  let newShowLogs := objSet st.showLogs containerID (!(isShown st.showLogs containerID))
  { state := { st with showLogs := newShowLogs },
    fetches := isShown newShowLogs containerID && !(cachedLogsTruthy st containerID) }

/-- The function `toggleDetails`. -/
def toggleDetails (st : DashboardState) (containerID : String) : ToggleResult :=
  let newShowDetails :=
    objSet st.showDetails containerID (!(isShown st.showDetails containerID))
  { state := { st with showDetails := newShowDetails },
    fetches := isShown newShowDetails containerID && !(cachedDetailsTruthy st containerID) }

/-- The text of the logs panel (line 705):
`containerLogs[container.full_id] || 'Loading logs...'`. `none` when the value
handed to the `<pre>` element is not a string (the boolean `true`, or a value
inherited from `Object.prototype`). -/
def logsPanelText (st : DashboardState) (containerID : String) : Option String :=
  match objRead st.containerLogs containerID with
  | .own (.str s) => if (JsVal.str s).toBoolean then some s else some "Loading logs..."
  | .own (.bool true) => none
  | .own _ => some "Loading logs..."
  | .inherited => none
  | .undefined => some "Loading logs..."

/-- The dashboard showing `[c1]` with the logs `old` cached for `c1` and its
logs panel open. -/
def exCached : DashboardState :=
  { initialState with containers := [exC1],
                      showLogs := [("c1full", true)],
                      containerLogs := [("c1full", .str "old")],
                      showDetails := [("c1full", true)],
                      containerDetails := [("c1full", DetailsVal.details (JsonVal.object "old"))] }

/-- The dashboard showing `[c1]` whose fetched logs are the empty string, with
the logs panel closed. -/
def exEmptyLogs : DashboardState :=
  { initialState with containers := [exC1],
                      showLogs := [("c1full", false)],
                      containerLogs := [("c1full", .str "")] }

/-- The dashboard showing `[c1, c2]` with a search term that hides `c1`, and
`c1` selected from before. -/
def exHidden : DashboardState :=
  { initialState with containers := [exC1, exC2], searchTerm := "c2",
                      selectedContainers := ["c1full"] }

/-- Spec wording: the containers of the current list that pass the three
tests of the filter, in list order. -/
def visibleContainers (toLowerCase : String → String) (st : DashboardState) :
    List Container :=
  st.containers.filter fun c =>
    decide (SpecPasses toLowerCase st.searchTerm st.statusFilter st.templateFilter c)

/-! ## Lemmas on the JavaScript operators -/

theorem startsWithChars_iff (needle hay : List Char) :
    startsWithChars needle hay = true ↔ needle <+: hay := by
  induction needle generalizing hay with
  | nil => simp [startsWithChars]
  | cons a as ih =>
    cases hay with
    | nil => simp [startsWithChars]
    | cons b bs =>
      simp [startsWithChars, ih, List.cons_prefix_cons]

theorem includesChars_iff (needle hay : List Char) :
    includesChars needle hay = true ↔ needle <:+: hay := by
  induction hay with
  | nil =>
    simp [includesChars, startsWithChars_iff]
  | cons c cs ih =>
    simp only [includesChars, Bool.or_eq_true, startsWithChars_iff, ih,
      List.infix_cons_iff]

theorem includes_iff (s t : String) : includes s t = true ↔ SubstringOf t s := by
  simp [includes, SubstringOf, includesChars_iff]

theorem matchesSearch_eval (toLowerCase : String → String) (t : String)
    (c : Container) :
    ∃ v, matchesSearch toLowerCase t c = .ok v ∧
      (v.toBoolean = true ↔ (t = "" ∨ SpecSubstringMatch toLowerCase t c)) := by
  by_cases ht : t = ""
  · exact ⟨.bool true, by simp [matchesSearch, jsOr, ht, JsVal.toBoolean, bind, Except.bind, pure,
        Except.pure],
      by simp [ht, JsVal.toBoolean]⟩
  by_cases h1 : includes (toLowerCase c.id) (toLowerCase t) = true
  · exact ⟨.bool true,
      by simp [matchesSearch, jsOr, ht, h1, JsVal.toBoolean, callToLowerCase,
        callIncludes, JsVal.toJsString, bind, Except.bind, pure, Except.pure],
      by simp [JsVal.toBoolean, SpecSubstringMatch, ← includes_iff, h1]⟩
  rcases htn : c.template_name with _ | n <;> rcases hte : c.tenant_id with _ | e
  · exact ⟨.undefined,
      by simp [matchesSearch, jsOr, ht, h1, htn, hte, JsVal.toBoolean, callToLowerCase,
        callIncludes, JsVal.toJsString, optionalChain, getProp, bind, Except.bind,
        pure, Except.pure],
      by simp [JsVal.toBoolean, SpecSubstringMatch, SpecFieldMatches, ← includes_iff,
        h1, ht, htn, hte]⟩
  · exact ⟨.bool (includes (toLowerCase e) (toLowerCase t)),
      by simp [matchesSearch, jsOr, ht, h1, htn, hte, JsVal.toBoolean, callToLowerCase,
        callIncludes, JsVal.toJsString, optionalChain, getProp, bind, Except.bind,
        pure, Except.pure],
      by simp [JsVal.toBoolean, SpecSubstringMatch, SpecFieldMatches, ← includes_iff,
        h1, ht, htn, hte]⟩
  · by_cases h2 : includes (toLowerCase n) (toLowerCase t) = true
    · exact ⟨.bool true,
        by simp [matchesSearch, jsOr, ht, h1, h2, htn, hte, JsVal.toBoolean,
          callToLowerCase, callIncludes, JsVal.toJsString, optionalChain, getProp,
          bind, Except.bind, pure, Except.pure],
        by simp [JsVal.toBoolean, SpecSubstringMatch, SpecFieldMatches, ← includes_iff,
          h1, h2, ht, htn, hte]⟩
    · exact ⟨.undefined,
        by simp [matchesSearch, jsOr, ht, h1, h2, htn, hte, JsVal.toBoolean,
          callToLowerCase, callIncludes, JsVal.toJsString, optionalChain, getProp,
          bind, Except.bind, pure, Except.pure],
        by simp [JsVal.toBoolean, SpecSubstringMatch, SpecFieldMatches, ← includes_iff,
          h1, h2, ht, htn, hte]⟩
  · by_cases h2 : includes (toLowerCase n) (toLowerCase t) = true
    · exact ⟨.bool true,
        by simp [matchesSearch, jsOr, ht, h1, h2, htn, hte, JsVal.toBoolean,
          callToLowerCase, callIncludes, JsVal.toJsString, optionalChain, getProp,
          bind, Except.bind, pure, Except.pure],
        by simp [JsVal.toBoolean, SpecSubstringMatch, SpecFieldMatches, ← includes_iff,
          h1, h2, ht, htn, hte]⟩
    · exact ⟨.bool (includes (toLowerCase e) (toLowerCase t)),
        by simp [matchesSearch, jsOr, ht, h1, h2, htn, hte, JsVal.toBoolean,
          callToLowerCase, callIncludes, JsVal.toJsString, optionalChain, getProp,
          bind, Except.bind, pure, Except.pure],
        by simp [JsVal.toBoolean, SpecSubstringMatch, SpecFieldMatches, ← includes_iff,
          h1, h2, ht, htn, hte]⟩

theorem matchesStatus_eval (s : String) (c : Container) :
    matchesStatus s c = .ok (.bool (decide (s = "all" ∨ c.state = s))) := by
  by_cases hs : s = "all" <;>
    simp [matchesStatus, jsOr, hs, JsVal.toBoolean, bind, Except.bind, pure, Except.pure]

theorem matchesTemplate_eval (f : String) (c : Container) :
    matchesTemplate f c = .ok (.bool (decide (f = "all" ∨ c.template_id = f))) := by
  by_cases hf : f = "all" <;>
    simp [matchesTemplate, jsOr, hf, JsVal.toBoolean, bind, Except.bind, pure, Except.pure]

theorem toBoolean_bool (b : Bool) : (JsVal.bool b).toBoolean = b := rfl

theorem jsAnd_ok (x : JsVal) (b : Unit → Js JsVal) :
    jsAnd (.ok x) b = if x.toBoolean then b () else .ok x := rfl

theorem filterCallback_eval (toLowerCase : String → String) (t s f : String)
    (c : Container) :
    ∃ v, filterCallback toLowerCase t s f c = .ok v ∧
      v.toBoolean = decide (SpecPasses toLowerCase t s f c) := by
  obtain ⟨v, hv, hiff⟩ := matchesSearch_eval toLowerCase t c
  have hcb : filterCallback toLowerCase t s f c =
      jsAnd (jsAnd (.ok v) fun _ => .ok (.bool (decide (s = "all" ∨ c.state = s))))
        fun _ => .ok (.bool (decide (f = "all" ∨ c.template_id = f))) := by
    simp only [filterCallback, hv, matchesStatus_eval, matchesTemplate_eval]
    rfl
  rw [hcb]
  by_cases h1 : v.toBoolean = true
  · by_cases h2 : s = "all" ∨ c.state = s
    · refine ⟨.bool (decide (f = "all" ∨ c.template_id = f)), ?_, ?_⟩
      · simp [jsAnd_ok, h1, h2, toBoolean_bool]
      · simp [toBoolean_bool, SpecPasses, ← hiff, h1, h2]
    · refine ⟨.bool false, ?_, ?_⟩
      · simp [jsAnd_ok, h1, h2, toBoolean_bool]
      · simp [toBoolean_bool, SpecPasses, ← hiff, h1, h2]
  · refine ⟨v, ?_, ?_⟩
    · simp [jsAnd_ok, h1]
    · have h3 : ¬ (t = "" ∨ SpecSubstringMatch toLowerCase t c) := fun h => h1 (hiff.2 h)
      simp [SpecPasses, h1, h3]

theorem arrayFilter_eq_filter {α : Type} (cb : α → Js JsVal) (p : α → Bool)
    (h : ∀ x, ∃ v, cb x = .ok v ∧ v.toBoolean = p x) (xs : List α) :
    arrayFilter cb xs = .ok (xs.filter p) := by
  induction xs with
  | nil => rfl
  | cons x xs ih =>
    obtain ⟨v, hv, hp⟩ := h x
    cases hpx : p x <;>
      simp [arrayFilter, hv, ih, hp, hpx, List.filter_cons, bind, Except.bind, pure,
        Except.pure]

theorem filteredContainers_eq_filter (toLowerCase : String → String)
    (cs : List Container) (t s f : String) :
    filteredContainers toLowerCase cs t s f =
      .ok (cs.filter fun c => decide (SpecPasses toLowerCase t s f c)) :=
  arrayFilter_eq_filter _ _ (filterCallback_eval toLowerCase t s f) cs

/-! ## The filter: claims C1 to C4 -/

/-- C1: for every container list, search term, status filter and template
filter, `filteredContainers` returns exactly the sub-sequence of the list, in
the original order, of the containers that pass all three tests; with an empty
search term and template filter "all", a status filter other than "all" keeps
exactly the containers whose state equals it. -/
theorem filteredContainers_spec (toLowerCase : String → String)
    (cs : List Container) (t s f : String) :
    filteredContainers toLowerCase cs t s f =
        .ok (cs.filter fun c => decide (SpecPasses toLowerCase t s f c)) ∧
      (cs.filter fun c => decide (SpecPasses toLowerCase t s f c)).Sublist cs ∧
      (t = "" → f = "all" → s ≠ "all" →
        filteredContainers toLowerCase cs t s f =
          .ok (cs.filter fun c => decide (c.state = s))) := by
  refine ⟨filteredContainers_eq_filter toLowerCase cs t s f, List.filter_sublist _, ?_⟩
  intro ht hf hs
  rw [filteredContainers_eq_filter]
  congr 1
  apply List.filter_congr
  intro c _
  simp [SpecPasses, ht, hf, hs]

/-- C1 on the fleet `[c1 exited, c2 running]` filtered by "running". -/
theorem filteredContainers_spec_witness :
    "running" ≠ "all" ∧
      filteredContainers asciiLower [exC1, exC2] "" "running" "all" = .ok [exC2] :=
  ⟨by decide,
    ((filteredContainers_spec asciiLower [exC1, exC2] "" "running" "all").2.2
      rfl rfl (by decide)).trans (by decide)⟩

/-- C2: for a non-empty search term the search test evaluates without an
exception, and its result is truthy exactly when the lower-cased term is a
substring of the lower-cased short id, template name or tenant id, a missing
template name or tenant id counting as no match on that field; the whole
filter evaluates without an exception as well. -/
theorem matchesSearch_spec (toLowerCase : String → String) (t : String)
    (c : Container) (ht : t ≠ "") :
    (∃ v, matchesSearch toLowerCase t c = .ok v ∧
      (v.toBoolean = true ↔
        (SubstringOf (toLowerCase t) (toLowerCase c.id) ∨
          (∃ n, c.template_name = some n ∧
            SubstringOf (toLowerCase t) (toLowerCase n)) ∨
          (∃ e, c.tenant_id = some e ∧
            SubstringOf (toLowerCase t) (toLowerCase e))))) ∧
      (∀ (cs : List Container) (s f : String),
        ∃ r, filteredContainers toLowerCase (c :: cs) t s f = .ok r) := by
  constructor
  · obtain ⟨v, hv, hiff⟩ := matchesSearch_eval toLowerCase t c
    refine ⟨v, hv, hiff.trans ?_⟩
    rcases htn : c.template_name with _ | n <;> rcases hte : c.tenant_id with _ | e <;>
      simp [ht, SpecSubstringMatch, SpecFieldMatches, htn, hte]
  · intro cs s f
    exact ⟨_, filteredContainers_eq_filter toLowerCase (c :: cs) t s f⟩

/-- C2 on a container without template name, matched through its tenant id. -/
theorem matchesSearch_spec_witness :
    "aCm" ≠ "" ∧
      (∃ v, matchesSearch asciiLower "aCm" exC2 = .ok v ∧
        (v.toBoolean = true ↔
          (SubstringOf (asciiLower "aCm") (asciiLower exC2.id) ∨
            (∃ n, exC2.template_name = some n ∧
              SubstringOf (asciiLower "aCm") (asciiLower n)) ∨
            (∃ e, exC2.tenant_id = some e ∧
              SubstringOf (asciiLower "aCm") (asciiLower e))))) :=
  ⟨by decide, (matchesSearch_spec asciiLower "aCm" exC2 (by decide)).1⟩

/-- C3: with an empty search term and both filters set to "all",
`filteredContainers` returns the container list unchanged. -/
theorem filteredContainers_all (toLowerCase : String → String)
    (cs : List Container) :
    filteredContainers toLowerCase cs "" "all" "all" = .ok cs := by
  rw [filteredContainers_eq_filter]
  congr 1
  simp [SpecPasses]

/-- C4: filtering is idempotent: the filter returns a list, and filtering that
list again with the same search term and filters returns it unchanged. -/
theorem filteredContainers_idempotent (toLowerCase : String → String)
    (cs : List Container) (t s f : String) :
    ∃ r, filteredContainers toLowerCase cs t s f = .ok r ∧
      filteredContainers toLowerCase r t s f = .ok r := by
  refine ⟨_, filteredContainers_eq_filter toLowerCase cs t s f, ?_⟩
  rw [filteredContainers_eq_filter, List.filter_filter]
  simp

/-! ## Polling and selection: claims C5 to C10 -/

theorem fetchContainers_response (st : DashboardState) (ok : Bool)
    (data : ResponseData) :
    fetchContainers st (.response ok data) =
      { st with containers := match data.containers with
                              | some l => l
                              | none => [] } := rfl

theorem mem_setAdd {set : List String} {x y : String} (h : y ∈ setAdd set x) :
    y ∈ set ∨ y = x := by
  unfold setAdd at h
  split at h
  · exact Or.inl h
  · simpa using h

theorem mem_setDelete {set : List String} {x y : String} (h : y ∈ setDelete set x) :
    y ∈ set := by
  unfold setDelete at h
  exact (List.mem_filter.1 h).1

theorem mem_foldl_setAdd (xs acc : List String) (y : String)
    (h : y ∈ xs.foldl setAdd acc) : y ∈ acc ∨ y ∈ xs := by
  induction xs generalizing acc with
  | nil => exact Or.inl h
  | cons x xs ih =>
    rcases ih (setAdd acc x) h with h1 | h1
    · rcases mem_setAdd h1 with h2 | h2
      · exact Or.inl h2
      · exact Or.inr (by simp [h2])
    · exact Or.inr (List.mem_cons_of_mem _ h1)

theorem mem_setFrom {xs : List String} {y : String} (h : y ∈ setFrom xs) : y ∈ xs := by
  rcases mem_foldl_setAdd xs [] y h with h1 | h1
  · cases h1
  · exact h1

theorem currentFiltered_keys (toLowerCase : String → String) (st : DashboardState)
    (fc : List Container) (h : currentFiltered toLowerCase st = .ok fc) (x : String)
    (hx : x ∈ keys fc) : x ∈ keys st.containers := by
  unfold currentFiltered at h
  rw [filteredContainers_eq_filter] at h
  cases h
  obtain ⟨c, hc, rfl⟩ := List.mem_map.1 hx
  exact List.mem_map.2 ⟨c, (List.mem_filter.1 hc).1, rfl⟩

theorem applyAction_keeps_invariant (toLowerCase : String → String)
    (st st1 : DashboardState) (a : Action) (hinv : SelectionWithinContainers st)
    (hpoll : PollKeepsSelected st a) (h : applyAction toLowerCase st a = some st1) :
    SelectionWithinContainers st1 := by
  cases a with
  | poll outcome =>
    simp only [applyAction, Option.some.injEq] at h
    subst h
    intro x hx
    apply hpoll
    cases outcome <;> exact hx
  | toggleSelection containerID =>
    simp only [applyAction] at h
    split at h
    · rename_i fc hfc
      split at h
      · rename_i hmem
        cases h
        have hid : containerID ∈ keys st.containers :=
          currentFiltered_keys toLowerCase st fc hfc containerID (by simpa [keys] using hmem)
        intro x hx
        simp only [toggleContainerSelection] at hx
        split at hx
        · exact hinv x (mem_setDelete hx)
        · rcases mem_setAdd hx with h1 | h1
          · exact hinv x h1
          · rw [h1]; exact hid
      · cases h
    · cases h
  | selectAll =>
    simp only [applyAction] at h
    split at h
    · rename_i st2 hsel
      cases h
      unfold selectAllContainers at hsel
      cases hfc : currentFiltered toLowerCase st with
      | error e => simp [hfc, bind, Except.bind] at hsel
      | ok fc =>
        simp only [hfc, bind, Except.bind] at hsel
        split at hsel
        · cases hsel
          intro x hx
          cases hx
        · cases hsel
          intro x hx
          exact currentFiltered_keys toLowerCase st fc hfc x (mem_setFrom hx)
    · cases h
  | clearSelection =>
    simp only [applyAction] at h
    split at h
    · cases h
      intro x hx
      cases hx
    · cases h
  | chooseBulkAction action =>
    simp only [applyAction] at h
    split at h
    · cases h; exact hinv
    · cases h
  | executeBulk confirmAnswer fulfils =>
    simp only [applyAction] at h
    split at h
    · cases h
      unfold handleBulkAction
      split
      · exact hinv
      · split
        · exact hinv
        · dsimp only
          split
          · intro x hx
            cases hx
          · exact hinv
    · cases h
  | typeSearch searchTerm => cases h; exact hinv
  | chooseStatus statusFilter => cases h; exact hinv
  | chooseTemplate templateFilter => cases h; exact hinv

theorem runActions_keeps_invariant (toLowerCase : String → String)
    (actions : List Action) (st st1 : DashboardState)
    (hinv : SelectionWithinContainers st)
    (hkeep : TraceKeepsSelected toLowerCase st actions)
    (h : runActions toLowerCase st actions = some st1) :
    SelectionWithinContainers st1 := by
  induction actions generalizing st with
  | nil =>
    cases h
    exact hinv
  | cons a as ih =>
    simp only [runActions] at h
    simp only [TraceKeepsSelected] at hkeep
    cases ha : applyAction toLowerCase st a with
    | none => simp [ha] at h
    | some st2 =>
      simp only [ha] at h hkeep
      exact ih st2 (applyAction_keeps_invariant toLowerCase st st2 a hinv hkeep.1 ha)
        hkeep.2 h

/-- C5, as stated, fails: with `c1` selected and an empty snapshot merged, the
selection after the poll is not the selection before intersected with the
snapshot's keys. -/
theorem selection_intersection_counterexample :
    ¬ SelectionIsIntersection exSelected.selectedContainers
        (fetchContainers exSelected
          (.response true (snapshotBody []))).selectedContainers [] := by
  intro h
  have h1 := (h "c1full").1 (by decide)
  simp [keys] at h1

/-- C5, amended: for every dashboard state and every successfully fetched
snapshot, the selection after the poll is the selection before it; a selected
id present in the snapshot is not dropped, and no id is removed. -/
theorem fetchContainers_selection_unchanged (st : DashboardState)
    (S2 : List Container) (err : Option String) :
    (fetchContainers st
        (.response true { containers := some S2, error := err })).selectedContainers =
      st.selectedContainers ∧
    ∀ x, x ∈ st.selectedContainers →
      x ∈ (fetchContainers st
        (.response true { containers := some S2, error := err })).selectedContainers :=
  ⟨rfl, fun _ hx => hx⟩

/-- C6, as stated, fails: the session `staleTrace` reaches a state whose
selection holds the id of a container that is no longer in the list. -/
theorem selection_subset_counterexample :
    runActions asciiLower initialState staleTrace = some staleState ∧
      ¬ SelectionWithinContainers staleState := by
  refine ⟨by decide, ?_⟩
  intro h
  have h1 := h "c1full" (by decide)
  simp [keys, staleState] at h1

/-- C6, amended: in every state reached from the initial state by a session
whose polls each keep the then-selected ids among the keys of the list they
install, every selected id is the `full_id` of a container of the current
list. -/
theorem selection_subset_when_polls_keep (toLowerCase : String → String)
    (actions : List Action) (st : DashboardState)
    (hkeep : TraceKeepsSelected toLowerCase initialState actions)
    (hrun : runActions toLowerCase initialState actions = some st) :
    SelectionWithinContainers st :=
  runActions_keeps_invariant toLowerCase actions initialState st
    (fun _ hx => by cases hx) hkeep hrun

/-- C6, amended, on the session `keptTrace`. -/
theorem selection_subset_when_polls_keep_witness :
    TraceKeepsSelected asciiLower initialState keptTrace ∧
      runActions asciiLower initialState keptTrace = some keptState ∧
      SelectionWithinContainers keptState :=
  have hkeep : TraceKeepsSelected asciiLower initialState keptTrace := by
    simp [TraceKeepsSelected, PollKeepsSelected, keptTrace, applyAction, initialState,
      fetchContainers_response, snapshotBody, keys, exC1, exC2, currentFiltered,
      filteredContainers_eq_filter, SpecPasses, toggleContainerSelection, setHas,
      setAdd, bulkOptions]
  have hrun : runActions asciiLower initialState keptTrace = some keptState := by decide
  ⟨hkeep, hrun, selection_subset_when_polls_keep asciiLower keptTrace keptState hkeep hrun⟩

/-- C7: a poll that fails with a transport error (`fetch` rejects, or the body
is not JSON) leaves the whole dashboard state as it was, so the containers list
is unchanged and no message is set. -/
theorem fetchContainers_transport_error (st : DashboardState) :
    fetchContainers st .fetchRejected = st ∧
      (∀ ok, fetchContainers st (.jsonRejected ok) = st) ∧
      (fetchContainers st .fetchRejected).containers = st.containers ∧
      (fetchContainers st .fetchRejected).message = st.message ∧
      (fetchContainers exSelected .fetchRejected).containers = [exC1] :=
  ⟨rfl, fun _ => rfl, rfl, rfl, rfl⟩

/-- C8: on a non-2xx response whose body is `{ error }` without a `containers`
property, `fetchContainers` replaces the displayed list `[c1]` by the empty
list. -/
theorem fetchContainers_error_body_blanks :
    exSelected.containers = [exC1] ∧
      (fetchContainers exSelected (.response false (errorBody "boom"))).containers = [] :=
  ⟨rfl, rfl⟩

/-- C9: after a successful poll whose body carries the container list `L`, the
containers state is `L`, in the order fetched, whatever the previous state
was. -/
theorem fetchContainers_replaces (st st2 : DashboardState) (L : List Container)
    (err : Option String) :
    (fetchContainers st
        (.response true { containers := some L, error := err })).containers = L ∧
      (fetchContainers st2
        (.response true { containers := some L, error := err })).containers =
      (fetchContainers st
        (.response true { containers := some L, error := err })).containers :=
  ⟨rfl, rfl⟩

/-- C10: merging a snapshot keeps every selection and every expansion of a
container that is still present: an id that is a key of the snapshot, merged in
any order, and was selected (logs shown, details shown) before the merge, is a
key of the containers list and still selected (logs shown, details shown)
after it. -/
theorem fetchContainers_keeps_present (st : DashboardState) (S S2 : List Container)
    (err : Option String) (x : String) (hperm : S2.Perm S) (hx : x ∈ keys S) :
    x ∈ keys (fetchContainers st
        (.response true { containers := some S2, error := err })).containers ∧
      (x ∈ st.selectedContainers →
        x ∈ (fetchContainers st
          (.response true { containers := some S2, error := err })).selectedContainers) ∧
      (isShown st.showLogs x = true →
        isShown (fetchContainers st
          (.response true { containers := some S2, error := err })).showLogs x = true) ∧
      (isShown st.showDetails x = true →
        isShown (fetchContainers st
          (.response true { containers := some S2, error := err })).showDetails x = true) := by
  refine ⟨?_, fun h => h, fun h => h, fun h => h⟩
  rw [fetchContainers_response]
  exact ((hperm.map fun c => c.full_id).mem_iff).2 hx

/-- C10 on the fleet `[c1, c2]` returned in the order `[c2, c1]`. -/
theorem fetchContainers_keeps_present_witness :
    [exC2, exC1].Perm [exC1, exC2] ∧ "c1full" ∈ keys [exC1, exC2] ∧
      "c1full" ∈ (fetchContainers exExpanded
        (.response true { containers := some [exC2, exC1],
                          error := none })).selectedContainers ∧
      isShown (fetchContainers exExpanded
        (.response true { containers := some [exC2, exC1],
                          error := none })).showLogs "c1full" = true :=
  have hperm : [exC2, exC1].Perm [exC1, exC2] := List.Perm.swap exC1 exC2 []
  have hx : "c1full" ∈ keys [exC1, exC2] := by decide
  have h := fetchContainers_keeps_present exExpanded [exC1, exC2] [exC2, exC1] none
    "c1full" hperm hx
  ⟨hperm, hx, h.2.1 (by decide), h.2.2.1 (by decide)⟩

/-! ## Merge, caches and single-container actions: claims C11 to C15 -/

theorem substringOf_middle (p t q : String) : SubstringOf t (p ++ t ++ q) := by
  unfold SubstringOf
  exact ⟨p.data, q.data, by simp [String.data_append]⟩

theorem substringOf_end (p t : String) : SubstringOf t (p ++ t) := by
  unfold SubstringOf
  exact ⟨p.data, [], by simp [String.data_append]⟩

theorem clickAction_requests (st : DashboardState) (containerID : String)
    (a : LifecycleAction) (confirmAnswer : Bool) (outcome : FetchOutcome) :
    (clickAction st containerID a confirmAnswer outcome).requests =
      clickRequests containerID a confirmAnswer := by
  cases a <;> cases confirmAnswer <;> rcases outcome with _ | ok | ⟨ok, data⟩ <;>
    try cases ok
  all_goals rfl

theorem clickRequests_confirmed (containerID : String) (a : LifecycleAction) :
    clickRequests containerID a true = [bulkRequest a.name containerID] := by
  cases a <;> rfl

theorem renderedLogsPanels_eq (toLowerCase : String → String) (st : DashboardState) :
    renderedLogsPanels toLowerCase st =
      .ok (((st.containers.filter fun c => decide (SpecPasses toLowerCase st.searchTerm
          st.statusFilter st.templateFilter c)).filter
        fun c => isShown st.showLogs c.full_id).map fun c => c.full_id) := by
  simp only [renderedLogsPanels, currentFiltered, filteredContainers_eq_filter]
  rfl

theorem renderedDetailsPanels_eq (toLowerCase : String → String)
    (st : DashboardState) :
    renderedDetailsPanels toLowerCase st =
      .ok (((st.containers.filter fun c => decide (SpecPasses toLowerCase st.searchTerm
          st.statusFilter st.templateFilter c)).filter
        fun c => isShown st.showDetails c.full_id).map fun c => c.full_id) := by
  simp only [renderedDetailsPanels, currentFiltered, filteredContainers_eq_filter]
  rfl

/-- C11: merging the same snapshot twice in sequence gives the same dashboard
state, in every cell, as merging it once. -/
theorem fetchContainers_idempotent (st : DashboardState) (S : List Container)
    (ok : Bool) (err : Option String) :
    fetchContainers
        (fetchContainers st (.response ok { containers := some S, error := err }))
        (.response ok { containers := some S, error := err }) =
      fetchContainers st (.response ok { containers := some S, error := err }) :=
  rfl

/-- C12, as stated, fails: with the logs panel of `c1` and the details panel of
`c2` expanded, merging the empty snapshot leaves both ids expanded although
neither is a key of the snapshot. -/
theorem expanded_pruned_counterexample :
    isShown (fetchContainers exExpanded
        (.response true (snapshotBody []))).showLogs "c1full" = true ∧
      isShown (fetchContainers exExpanded
        (.response true (snapshotBody []))).showDetails "c2full" = true ∧
      "c1full" ∉ keys [] ∧ "c2full" ∉ keys [] := by
  decide

/-- C12, amended: a merge leaves `showLogs` and `showDetails` as they were, and
the logs and details panels rendered after it all belong to ids that are keys
of the merged snapshot. -/
theorem fetchContainers_expanded_inert (toLowerCase : String → String)
    (st : DashboardState) (S : List Container) (err : Option String) :
    (fetchContainers st
        (.response true { containers := some S, error := err })).showLogs =
        st.showLogs ∧
      (fetchContainers st
        (.response true { containers := some S, error := err })).showDetails =
        st.showDetails ∧
      (∃ ids, renderedLogsPanels toLowerCase (fetchContainers st
          (.response true { containers := some S, error := err })) = .ok ids ∧
        ∀ x ∈ ids, x ∈ keys S) ∧
      (∃ ids, renderedDetailsPanels toLowerCase (fetchContainers st
          (.response true { containers := some S, error := err })) = .ok ids ∧
        ∀ x ∈ ids, x ∈ keys S) := by
  refine ⟨rfl, rfl, ?_, ?_⟩
  · refine ⟨_, renderedLogsPanels_eq toLowerCase _, ?_⟩
    · intro x hx
      obtain ⟨c, hc, rfl⟩ := List.mem_map.1 hx
      have hc1 := (List.mem_filter.1 (List.mem_filter.1 hc).1).1
      exact List.mem_map.2 ⟨c, hc1, rfl⟩
  · refine ⟨_, renderedDetailsPanels_eq toLowerCase _, ?_⟩
    · intro x hx
      obtain ⟨c, hc, rfl⟩ := List.mem_map.1 hx
      have hc1 := (List.mem_filter.1 (List.mem_filter.1 hc).1).1
      exact List.mem_map.2 ⟨c, hc1, rfl⟩

/-- C13: whatever the outcome of a poll, success with any body or failure,
`containerLogs` and `containerDetails` after `fetchContainers` are what they
were before it. -/
theorem fetchContainers_keeps_caches (st : DashboardState) (outcome : FetchOutcome) :
    (fetchContainers st outcome).containerLogs = st.containerLogs ∧
      (fetchContainers st outcome).containerDetails = st.containerDetails := by
  cases outcome <;> exact ⟨rfl, rfl⟩

/-- C14, as stated, fails: while a Stop on container `abc123` is in flight, a
second Stop on it hands a second request to `fetch`. -/
theorem duplicate_command_counterexample :
    pendingAction exPendingStop "abc123" = some "stop" ∧
      (invokeAction exPendingStop "abc123" .stop true).sent =
        [controlRequest "abc123" "stop", controlRequest "abc123" "stop"] ∧
      (invokeAction exPendingStop "abc123" .stop true).sent ≠ exPendingStop.sent := by
  decide

/-- C14, amended: for every container id and action, a click on the action
(confirmed, for delete) hands exactly one more request to `fetch`, whatever
calls are in flight, and leaves the dashboard state as it is: no conflict is
reported. -/
theorem invokeAction_always_sends (s : Session) (containerID : String)
    (a : LifecycleAction) :
    (invokeAction s containerID a true).sent =
        s.sent ++ [bulkRequest a.name containerID] ∧
      (invokeAction s containerID a true).state = s.state := by
  simp [invokeAction, clickRequests_confirmed]

/-- C15: for every container id, a confirmed delete issues exactly the request
`DELETE /api/launch/{id}`, and start, stop and restart issue exactly the
request `POST /api/containers/{id}/{action}`. -/
theorem single_action_endpoints (st : DashboardState) (containerID : String)
    (confirmAnswer : Bool) (outcome : FetchOutcome) :
    (clickAction st containerID .delete true outcome).requests =
        [{ method := .DELETE, path := "/api/launch/" ++ containerID }] ∧
      (clickAction st containerID .start confirmAnswer outcome).requests =
        [{ method := .POST, path := "/api/containers/" ++ containerID ++ "/start" }] ∧
      (clickAction st containerID .stop confirmAnswer outcome).requests =
        [{ method := .POST, path := "/api/containers/" ++ containerID ++ "/stop" }] ∧
      (clickAction st containerID .restart confirmAnswer outcome).requests =
        [{ method := .POST, path := "/api/containers/" ++ containerID ++ "/restart" }] := by
  simp only [clickAction_requests]
  refine ⟨rfl, ?_, ?_, ?_⟩ <;>
    simp [clickRequests, clickAction, controlContainer, controlRequest,
      String.append_assoc]

/-! ## Bulk actions and failed actions: claims C16 to C20 -/

theorem name_ne_empty (a : LifecycleAction) : a.name ≠ "" := by
  cases a <;> decide

theorem append_left_cancel (p x y : String) (h : p ++ x = p ++ y) : x = y := by
  have h1 := congrArg String.data h
  simp only [String.data_append, List.append_cancel_left_eq] at h1
  exact String.ext h1

theorem append_right_cancel (x y q : String) (h : x ++ q = y ++ q) : x = y := by
  have h1 := congrArg String.data h
  simp only [String.data_append, List.append_cancel_right_eq] at h1
  exact String.ext h1

theorem bulkRequest_injective (action : String) :
    Function.Injective (bulkRequest action) := by
  intro x y h
  unfold bulkRequest at h
  split at h
  · simp only [Request.mk.injEq, true_and] at h
    exact append_left_cancel _ _ _ h
  · simp only [Request.mk.injEq, true_and] at h
    exact append_left_cancel _ _ _
      (append_right_cancel _ _ _ (append_right_cancel _ _ _ h))

theorem handleBulkAction_dispatch (st : DashboardState) (fulfils : Request → Bool)
    (hsel : st.selectedContainers ≠ []) (ha : st.bulkAction ≠ "") :
    handleBulkAction st true fulfils =
      if (st.selectedContainers.map (bulkRequest st.bulkAction)).all fulfils then
        { requests := st.selectedContainers.map (bulkRequest st.bulkAction),
          state := { st with
            message := "Bulk " ++ st.bulkAction ++ " completed for " ++
              toString st.selectedContainers.length ++ " containers",
            selectedContainers := [],
            bulkAction := "" },
          refetch := true }
      else
        { requests := st.selectedContainers.map (bulkRequest st.bulkAction),
          state := { st with message := "Failed to complete bulk " ++ st.bulkAction },
          refetch := false } := by
  have h : ¬ (st.bulkAction = "" ∨ st.selectedContainers.length = 0) := by
    simp [ha, hsel]
  unfold handleBulkAction
  rw [if_neg h]
  rfl

theorem all_fulfil_iff (sel : List String) (action : String)
    (outcomeOf : Request → FetchOutcome) :
    ((sel.map (bulkRequest action)).all fun r => fetchFulfils (outcomeOf r)) = true ↔
      ∀ id ∈ sel, outcomeOf (bulkRequest action id) ≠ .fetchRejected := by
  simp only [List.all_eq_true, List.mem_map, forall_exists_index, and_imp,
    forall_apply_eq_imp_iff₂]
  constructor
  · intro h id hid he
    have := h id hid
    rw [he] at this
    cases this
  · intro h id hid
    have := h id hid
    cases ho : outcomeOf (bulkRequest action id) with
    | fetchRejected => exact absurd ho this
    | jsonRejected ok => rfl
    | response ok data => rfl

/-- C16: for a non-empty selection and any of the four actions, a confirmed
`handleBulkAction` issues one request per selected id, in selection order, as
many requests as the selection has members and no request twice, and the
request for an id is the one the single-container action issues for that id
and action. -/
theorem bulk_fanout (st : DashboardState) (a : LifecycleAction)
    (fulfils : Request → Bool) (hsel : st.selectedContainers ≠ [])
    (ha : st.bulkAction = a.name) (hnodup : st.selectedContainers.Nodup) :
    (handleBulkAction st true fulfils).requests =
        st.selectedContainers.map (bulkRequest a.name) ∧
      (handleBulkAction st true fulfils).requests.length =
        st.selectedContainers.length ∧
      (handleBulkAction st true fulfils).requests.Nodup ∧
      ∀ id ∈ st.selectedContainers, ∀ (st1 : DashboardState) (outcome : FetchOutcome),
        (clickAction st1 id a true outcome).requests = [bulkRequest a.name id] := by
  have hreq : (handleBulkAction st true fulfils).requests =
      st.selectedContainers.map (bulkRequest a.name) := by
    rw [handleBulkAction_dispatch st fulfils hsel (ha ▸ name_ne_empty a), ha]
    split <;> rfl
  refine ⟨hreq, ?_, ?_, ?_⟩
  · rw [hreq, List.length_map]
  · rw [hreq]
    exact hnodup.map (bulkRequest_injective a.name)
  · intro id _ st1 outcome
    rw [clickAction_requests, clickRequests_confirmed]

/-- C16 on the selection `{a, b}` with the bulk action "delete". -/
theorem bulk_fanout_witness :
    exBulk.selectedContainers ≠ [] ∧ exBulk.bulkAction = LifecycleAction.delete.name ∧
      exBulk.selectedContainers.Nodup ∧
      (handleBulkAction exBulk true fun _ => true).requests =
        ["a", "b"].map (bulkRequest "delete") :=
  have hsel : exBulk.selectedContainers ≠ [] := by decide
  have hnodup : exBulk.selectedContainers.Nodup := by decide
  ⟨hsel, rfl, hnodup, (bulk_fanout exBulk .delete (fun _ => true) hsel rfl hnodup).1⟩

/-- C17: with an empty selection or no bulk action chosen, `handleBulkAction`
issues no request, calls no refresh and leaves the dashboard state, hence
message, selection, bulk action and containers, unchanged. -/
theorem bulk_noop (st : DashboardState) (confirmAnswer : Bool)
    (fulfils : Request → Bool)
    (h : st.selectedContainers = [] ∨ st.bulkAction = "") :
    handleBulkAction st confirmAnswer fulfils =
        { requests := [], state := st, refetch := false } ∧
      (handleBulkAction st confirmAnswer fulfils).state.message = st.message ∧
      (handleBulkAction st confirmAnswer fulfils).state.selectedContainers =
        st.selectedContainers ∧
      (handleBulkAction st confirmAnswer fulfils).state.bulkAction = st.bulkAction ∧
      (handleBulkAction st confirmAnswer fulfils).state.containers = st.containers := by
  have h1 : st.bulkAction = "" ∨ st.selectedContainers.length = 0 := by
    rcases h with h | h
    · exact Or.inr (by rw [h]; rfl)
    · exact Or.inl h
  have h2 : handleBulkAction st confirmAnswer fulfils =
      { requests := [], state := st, refetch := false } := by
    unfold handleBulkAction
    rw [if_pos h1]
  rw [h2]
  exact ⟨rfl, rfl, rfl, rfl, rfl⟩

/-- C17 on a state with two containers selected and no bulk action chosen. -/
theorem bulk_noop_witness :
    (exExpanded.selectedContainers = [] ∨ exExpanded.bulkAction = "") ∧
      handleBulkAction exExpanded true (fun _ => true) =
        { requests := [], state := exExpanded, refetch := false } :=
  ⟨Or.inr rfl, (bulk_noop exExpanded true (fun _ => true) (Or.inr rfl)).1⟩

/-- C18, as stated, fails: with `{a, b}` selected and "delete" chosen, when the
request for `b` obtains no response, both requests are issued and the
selection and the chosen action are left as they were. -/
theorem bulk_clears_counterexample :
    (handleBulkAction exBulk true
        fun r => fetchFulfils (exTransportFailure r)).requests =
        [deleteRequest "a", deleteRequest "b"] ∧
      (handleBulkAction exBulk true
        fun r => fetchFulfils (exTransportFailure r)).state.selectedContainers =
        ["a", "b"] ∧
      (handleBulkAction exBulk true
        fun r => fetchFulfils (exTransportFailure r)).state.bulkAction = "delete" := by
  decide

/-- C18, amended: for a non-empty selection and any action, after a confirmed
`handleBulkAction` whose requests all obtain a response, with any status, the
selection is empty and the bulk action is the empty string; when some request
obtains no response, the selection and the bulk action are left unchanged. -/
theorem bulk_clears_when_all_respond (st : DashboardState) (a : LifecycleAction)
    (outcomeOf : Request → FetchOutcome) (hsel : st.selectedContainers ≠ [])
    (ha : st.bulkAction = a.name) :
    ((∀ id ∈ st.selectedContainers,
          outcomeOf (bulkRequest a.name id) ≠ .fetchRejected) →
        (handleBulkAction st true
          fun r => fetchFulfils (outcomeOf r)).state.selectedContainers = [] ∧
        (handleBulkAction st true
          fun r => fetchFulfils (outcomeOf r)).state.bulkAction = "") ∧
      ((∃ id ∈ st.selectedContainers,
          outcomeOf (bulkRequest a.name id) = .fetchRejected) →
        (handleBulkAction st true
          fun r => fetchFulfils (outcomeOf r)).state.selectedContainers =
          st.selectedContainers ∧
        (handleBulkAction st true
          fun r => fetchFulfils (outcomeOf r)).state.bulkAction = st.bulkAction) := by
  rw [handleBulkAction_dispatch st _ hsel (ha ▸ name_ne_empty a), ha]
  constructor
  · intro hall
    rw [if_pos ((all_fulfil_iff _ _ _).2 hall)]
    exact ⟨rfl, rfl⟩
  · intro hex
    have hnot : ¬ ((st.selectedContainers.map (bulkRequest a.name)).all
        fun r => fetchFulfils (outcomeOf r)) = true := by
      intro hall
      obtain ⟨id, hid, he⟩ := hex
      exact (all_fulfil_iff _ _ _).1 hall id hid he
    rw [if_neg hnot]
    exact ⟨rfl, rfl⟩

/-- C18, amended, on `{a, b}` with "delete": `a` succeeds and `b` is answered
with a 500. -/
theorem bulk_clears_when_all_respond_witness :
    exBulk.selectedContainers ≠ [] ∧ exBulk.bulkAction = LifecycleAction.delete.name ∧
      (∀ id ∈ exBulk.selectedContainers,
        exBackendFailure (bulkRequest LifecycleAction.delete.name id) ≠ .fetchRejected) ∧
      (handleBulkAction exBulk true
        fun r => fetchFulfils (exBackendFailure r)).state.selectedContainers = [] ∧
      (handleBulkAction exBulk true
        fun r => fetchFulfils (exBackendFailure r)).state.bulkAction = "" :=
  have hsel : exBulk.selectedContainers ≠ [] := by decide
  have hall : ∀ id ∈ exBulk.selectedContainers,
      exBackendFailure (bulkRequest LifecycleAction.delete.name id) ≠ .fetchRejected := by
    decide
  ⟨hsel, rfl, hall,
    (bulk_clears_when_all_respond exBulk .delete exBackendFailure hsel rfl).1 hall⟩

/-- C19, as stated, fails: with `{a, b}` selected and "delete" chosen, when the
request for `b` obtains no response the message reported does not mention the
count 2. -/
theorem bulk_message_counterexample :
    (handleBulkAction exBulk true
        fun r => fetchFulfils (exTransportFailure r)).state.message =
        "Failed to complete bulk delete" ∧
      ¬ SubstringOf "2" (handleBulkAction exBulk true
        fun r => fetchFulfils (exTransportFailure r)).state.message := by
  decide

theorem digitChar_mem (n : Nat) :
    Nat.digitChar (n % 10) ∈ ['0', '1', '2', '3', '4', '5', '6', '7', '8', '9'] := by
  have h : n % 10 < 10 := Nat.mod_lt n (by decide)
  interval_cases n % 10 <;> decide

theorem toDigitsCore_mem_digits (fuel n : Nat) (ds : List Char) (c : Char)
    (h : c ∈ Nat.toDigitsCore 10 fuel n ds) :
    c ∈ ds ∨ c ∈ ['0', '1', '2', '3', '4', '5', '6', '7', '8', '9'] := by
  induction fuel generalizing n ds with
  | zero => exact Or.inl h
  | succ fuel ih =>
    simp only [Nat.toDigitsCore] at h
    split at h
    · rcases List.mem_cons.1 h with h1 | h1
      · exact Or.inr (h1 ▸ digitChar_mem n)
      · exact Or.inl h1
    · rcases ih _ _ h with h1 | h1
      · rcases List.mem_cons.1 h1 with h2 | h2
        · exact Or.inr (h2 ▸ digitChar_mem n)
        · exact Or.inl h2
      · exact Or.inr h1

theorem toDigitsCore_ne_nil (fuel n : Nat) (ds : List Char) (h : ds ≠ []) :
    Nat.toDigitsCore 10 fuel n ds ≠ [] := by
  induction fuel generalizing n ds with
  | zero => exact h
  | succ fuel ih =>
    simp only [Nat.toDigitsCore]
    split
    · exact List.cons_ne_nil _ _
    · exact ih _ _ (List.cons_ne_nil _ _)

theorem toString_digit (n : Nat) :
    ∃ c, c ∈ (toString n).data ∧
      c ∈ ['0', '1', '2', '3', '4', '5', '6', '7', '8', '9'] := by
  have h1 : (toString n).data = Nat.toDigitsCore 10 (n + 1) n [] := rfl
  have h2 : Nat.toDigitsCore 10 (n + 1) n [] ≠ [] := by
    simp only [Nat.toDigitsCore]
    split
    · exact List.cons_ne_nil _ _
    · exact toDigitsCore_ne_nil _ _ _ (List.cons_ne_nil _ _)
  obtain ⟨c, hc⟩ := List.exists_mem_of_ne_nil _ h2
  refine ⟨c, h1 ▸ hc, ?_⟩
  rcases toDigitsCore_mem_digits _ _ _ _ hc with h3 | h3
  · cases h3
  · exact h3

theorem failure_message_no_count (a : LifecycleAction) (n : Nat) :
    ¬ SubstringOf (toString n) ("Failed to complete bulk " ++ a.name) := by
  intro h
  obtain ⟨c, hc, hd⟩ := toString_digit n
  have hm : c ∈ ("Failed to complete bulk " ++ a.name).data := List.IsInfix.subset h hc
  clear hc h
  simp only [String.data_append, List.mem_append] at hm
  rcases hm with hm | hm
  · revert c; decide
  · cases a <;> revert c <;> decide

/-- C19, amended: for a non-empty selection of `n` containers and any action,
after a confirmed `handleBulkAction` whose requests all obtain a response,
with any status, the message is "Bulk <action> completed for <n> containers":
it states the action and the count and nothing about individual outcomes; when
some request obtains no response the message is "Failed to complete bulk
<action>", which states the action and not the count. -/
theorem bulk_message_by_outcome (st : DashboardState) (a : LifecycleAction)
    (outcomeOf : Request → FetchOutcome) (hsel : st.selectedContainers ≠ [])
    (ha : st.bulkAction = a.name) :
    ((∀ id ∈ st.selectedContainers,
          outcomeOf (bulkRequest a.name id) ≠ .fetchRejected) →
        (handleBulkAction st true fun r => fetchFulfils (outcomeOf r)).state.message =
          "Bulk " ++ a.name ++ " completed for " ++
            toString st.selectedContainers.length ++ " containers" ∧
        SubstringOf a.name
          (handleBulkAction st true fun r => fetchFulfils (outcomeOf r)).state.message ∧
        SubstringOf (toString st.selectedContainers.length)
          (handleBulkAction st true
            fun r => fetchFulfils (outcomeOf r)).state.message) ∧
      ((∃ id ∈ st.selectedContainers,
          outcomeOf (bulkRequest a.name id) = .fetchRejected) →
        (handleBulkAction st true fun r => fetchFulfils (outcomeOf r)).state.message =
          "Failed to complete bulk " ++ a.name ∧
        SubstringOf a.name
          (handleBulkAction st true fun r => fetchFulfils (outcomeOf r)).state.message ∧
        ¬ SubstringOf (toString st.selectedContainers.length)
          (handleBulkAction st true
            fun r => fetchFulfils (outcomeOf r)).state.message) := by
  rw [handleBulkAction_dispatch st _ hsel (ha ▸ name_ne_empty a), ha]
  constructor
  · intro hall
    rw [if_pos ((all_fulfil_iff _ _ _).2 hall)]
    refine ⟨rfl, ?_, substringOf_middle _ _ _⟩
    unfold SubstringOf
    exact ⟨"Bulk ".data,
      (" completed for " ++ toString st.selectedContainers.length ++ " containers").data,
      by simp [String.data_append]⟩
  · intro hex
    have hnot : ¬ ((st.selectedContainers.map (bulkRequest a.name)).all
        fun r => fetchFulfils (outcomeOf r)) = true := by
      intro hall
      obtain ⟨id, hid, he⟩ := hex
      exact (all_fulfil_iff _ _ _).1 hall id hid he
    rw [if_neg hnot]
    exact ⟨rfl, substringOf_end _ _, failure_message_no_count a _⟩

/-- C19, amended, on `{a, b}` with "delete": when `b` is answered with a 500
the message mentions 2, and when `b` obtains no response it names the action
only. -/
theorem bulk_message_by_outcome_witness :
    exBulk.selectedContainers ≠ [] ∧ exBulk.bulkAction = LifecycleAction.delete.name ∧
      (∀ id ∈ exBulk.selectedContainers,
        exBackendFailure (bulkRequest LifecycleAction.delete.name id) ≠ .fetchRejected) ∧
      (handleBulkAction exBulk true
        fun r => fetchFulfils (exBackendFailure r)).state.message =
        "Bulk delete completed for 2 containers" ∧
      (∃ id ∈ exBulk.selectedContainers,
        exTransportFailure (bulkRequest LifecycleAction.delete.name id) = .fetchRejected) ∧
      (handleBulkAction exBulk true
        fun r => fetchFulfils (exTransportFailure r)).state.message =
        "Failed to complete bulk delete" :=
  have hsel : exBulk.selectedContainers ≠ [] := by decide
  have hall : ∀ id ∈ exBulk.selectedContainers,
      exBackendFailure (bulkRequest LifecycleAction.delete.name id) ≠ .fetchRejected := by
    decide
  have hex : ∃ id ∈ exBulk.selectedContainers,
      exTransportFailure (bulkRequest LifecycleAction.delete.name id) = .fetchRejected :=
    ⟨"b", by decide, by decide⟩
  ⟨hsel, rfl, hall,
    (((bulk_message_by_outcome exBulk .delete exBackendFailure hsel rfl).1 hall).1).trans
      (by decide),
    hex,
    (((bulk_message_by_outcome exBulk .delete exTransportFailure hsel rfl).2 hex).1).trans
      (by decide)⟩

/-- C20: when a single-container action is answered with a non-2xx response
whose body carries the error text `e`, for every container id and each of the
four actions, the message is "Failed to <action> container: " followed by `e`,
so it contains `e` verbatim; the containers list is unchanged and no refresh
is triggered. -/
theorem failed_action_reports_error (st : DashboardState) (containerID : String)
    (a : LifecycleAction) (cs : Option (List Container)) (e : String) :
    (clickAction st containerID a true
        (.response false { containers := cs, error := some e })).state.message =
        "Failed to " ++ a.name ++ " container: " ++ e ∧
      SubstringOf e (clickAction st containerID a true
        (.response false { containers := cs, error := some e })).state.message ∧
      (clickAction st containerID a true
        (.response false { containers := cs, error := some e })).state.containers =
        st.containers ∧
      (clickAction st containerID a true
        (.response false { containers := cs, error := some e })).refetch = false := by
  cases a
  all_goals
    refine ⟨?_, substringOf_end _ _, rfl, rfl⟩
    apply String.ext
    simp [clickAction, controlContainer, deleteContainer, interpolate, getProp,
      JsVal.toJsString, LifecycleAction.name, String.data_append]

/-! ## Success messages, poll loop and panels: claims C21 to C26 -/

theorem objGet_cons {α : Type} (kv : String × α) (rest : List (String × α))
    (k : String) :
    objGet (kv :: rest) k = if kv.1 = k then some kv.2 else objGet rest k := by
  by_cases h : kv.1 = k <;> simp [objGet, List.find?_cons, h]

theorem objGet_append_new {α : Type} (obj : List (String × α)) (key k : String) (v : α)
    (h : (obj.any fun kv => kv.1 == key) = false) :
    objGet (obj ++ [(key, v)]) k = if k = key then some v else objGet obj k := by
  induction obj with
  | nil =>
    rw [List.nil_append, objGet_cons]
    by_cases hk : k = key
    · rw [if_pos hk.symm, if_pos hk]
    · rw [if_neg (fun e => hk e.symm), if_neg hk]
  | cons kv rest ih =>
    rw [List.any_cons, Bool.or_eq_false_iff] at h
    have hne : ¬ kv.1 = key := by simpa using h.1
    rw [List.cons_append, objGet_cons, objGet_cons, ih h.2]
    by_cases hkv : kv.1 = k
    · rw [if_pos hkv, if_neg (fun e => hne (hkv.trans e)), if_pos hkv]
    · rw [if_neg hkv, if_neg hkv]

theorem objGet_map_other {α : Type} (obj : List (String × α)) (key k : String) (v : α)
    (hk : k ≠ key) :
    objGet (obj.map fun kv => if kv.1 == key then (key, v) else kv) k = objGet obj k := by
  induction obj with
  | nil => rfl
  | cons kv rest ih =>
    rw [List.map_cons, objGet_cons, objGet_cons, ih]
    by_cases hkv : kv.1 = key
    · have h1 : (kv.1 == key) = true := by simpa using hkv
      rw [if_pos h1]
      rw [if_neg (fun e : key = k => hk e.symm), if_neg (fun e => hk (e.symm.trans hkv))]
    · have h1 : ¬ (kv.1 == key) = true := by simpa using hkv
      rw [if_neg h1]

theorem objGet_map_same {α : Type} (obj : List (String × α)) (key : String) (v : α)
    (h : (obj.any fun kv => kv.1 == key) = true) :
    objGet (obj.map fun kv => if kv.1 == key then (key, v) else kv) key = some v := by
  induction obj with
  | nil => cases h
  | cons kv rest ih =>
    rw [List.map_cons, objGet_cons]
    by_cases hkv : kv.1 = key
    · have h1 : (kv.1 == key) = true := by simpa using hkv
      rw [if_pos h1, if_pos rfl]
    · have h1 : ¬ (kv.1 == key) = true := by simpa using hkv
      rw [if_neg h1, if_neg hkv]
      apply ih
      rw [List.any_cons, Bool.or_eq_true] at h
      exact h.resolve_left h1

theorem objGet_objSet {α : Type} (obj : List (String × α)) (key k : String) (v : α) :
    objGet (objSet obj key v) k = if k = key then some v else objGet obj k := by
  unfold objSet
  split
  · rename_i h
    by_cases hk : k = key
    · rw [if_pos hk, hk]
      exact objGet_map_same obj key v h
    · rw [if_neg hk]
      exact objGet_map_other obj key k v hk
  · rename_i h
    exact objGet_append_new obj key k v (Bool.eq_false_iff.2 h)

theorem fetchContainerLogs_cache (st : DashboardState) (containerID : String)
    (outcome : PanelOutcome LogsData) :
    ∃ v, (fetchContainerLogs st containerID outcome).containerLogs =
      objSet st.containerLogs containerID v := by
  rcases outcome with _ | ok | ⟨ok, data⟩
  · exact ⟨_, rfl⟩
  · exact ⟨_, rfl⟩
  · cases ok
    · exact ⟨_, rfl⟩
    · exact ⟨_, rfl⟩

theorem fetchContainerDetails_cache (st : DashboardState) (containerID : String)
    (outcome : PanelOutcome DetailsData) :
    ∃ v, (fetchContainerDetails st containerID outcome).containerDetails =
      objSet st.containerDetails containerID v := by
  rcases outcome with _ | ok | ⟨ok, data⟩
  · exact ⟨_, rfl⟩
  · exact ⟨_, rfl⟩
  · cases ok
    · exact ⟨_, rfl⟩
    · exact ⟨_, rfl⟩

/-- C21, as stated, fails: the success message of Stop on container `abc123`
is "Container stoped successfully", which holds no identifier of the
container and is the same message as for container `def456`. -/
theorem success_message_counterexample :
    (clickAction initialState "abc123" .stop true
        (.response true { containers := none, error := none })).state.message =
        "Container stoped successfully" ∧
      ¬ SubstringOf "abc123" (clickAction initialState "abc123" .stop true
        (.response true { containers := none, error := none })).state.message ∧
      (clickAction initialState "def456" .stop true
        (.response true { containers := none, error := none })).state.message =
        (clickAction initialState "abc123" .stop true
          (.response true { containers := none, error := none })).state.message := by
  decide

/-- C21, amended: on a successful single-container action the message contains
the action name, for every container id and each of the four actions; for
delete it is "Container <first twelve characters of the id> deleted
successfully" and so contains that prefix of the id, and for start, stop and
restart it is "Container <action>ed successfully", whatever the container. -/
theorem success_message_names_action (st : DashboardState) (containerID : String)
    (a : LifecycleAction) (data : ResponseData) :
    SubstringOf a.name
        (clickAction st containerID a true (.response true data)).state.message ∧
      (a = .delete →
        (clickAction st containerID a true (.response true data)).state.message =
          "Container " ++ substring12 containerID ++ " deleted successfully" ∧
        SubstringOf (substring12 containerID)
          (clickAction st containerID a true (.response true data)).state.message) ∧
      (a ≠ .delete →
        (clickAction st containerID a true (.response true data)).state.message =
          "Container " ++ a.name ++ "ed successfully") := by
  cases a
  · refine ⟨substringOf_middle _ _ _, ?_, fun _ => rfl⟩
    intro h
    cases h
  · refine ⟨substringOf_middle _ _ _, ?_, fun _ => rfl⟩
    intro h
    cases h
  · refine ⟨substringOf_middle _ _ _, ?_, fun _ => rfl⟩
    intro h
    cases h
  · refine ⟨?_, fun _ => ⟨rfl, substringOf_middle _ _ _⟩, fun h => absurd rfl h⟩
    exact ⟨("Container " ++ substring12 containerID ++ " ").data, "d successfully".data,
      by simp [clickAction, deleteContainer, LifecycleAction.name, String.data_append]⟩

/-- C21, amended, on a delete and on a stop of container `abc123`. -/
theorem success_message_names_action_witness :
    (clickAction initialState "abc123" .delete true
        (.response true { containers := none, error := none })).state.message =
        "Container abc123 deleted successfully" ∧
      (clickAction initialState "abc123" .stop true
        (.response true { containers := none, error := none })).state.message =
        "Container stoped successfully" :=
  ⟨((success_message_names_action initialState "abc123" .delete
        { containers := none, error := none }).2.1 rfl).1.trans (by decide),
    ((success_message_names_action initialState "abc123" .stop
        { containers := none, error := none }).2.2 (by decide)).trans (by decide)⟩

theorem runLoop_ticks (n : Nat) (p : PollLoop) (h : p.intervalActive = true) :
    (runLoop p (List.replicate n .tick)).pollsInFlight = p.pollsInFlight + n ∧
      (runLoop p (List.replicate n .tick)).sent =
        p.sent ++ List.replicate n containersRequest ∧
      (runLoop p (List.replicate n .tick)).state = p.state := by
  induction n generalizing p with
  | zero => simp [runLoop]
  | succ n ih =>
    have ht : (tick p).intervalActive = true := by
      unfold tick
      rw [if_pos h]
      exact h
    obtain ⟨h1, h2, h3⟩ := ih (tick p) ht
    have hrun : runLoop p (List.replicate (n + 1) .tick) =
        runLoop (tick p) (List.replicate n .tick) := rfl
    rw [hrun, h1, h2, h3]
    unfold tick
    rw [if_pos h]
    refine ⟨by simp only []; omega, ?_, rfl⟩
    simp [List.replicate_succ]

theorem runLoop_cleared (events : List LoopEvent) (p : PollLoop)
    (h : p.intervalActive = false) :
    (runLoop p events).intervalActive = false ∧ (runLoop p events).sent = p.sent ∧
      (runLoop p events).pollsInFlight ≤ p.pollsInFlight := by
  induction events generalizing p with
  | nil => exact ⟨h, rfl, Nat.le_refl _⟩
  | cons e es ih =>
    have hrun : runLoop p (e :: es) = runLoop (stepLoop p e) es := rfl
    have hstep : (stepLoop p e).intervalActive = false ∧ (stepLoop p e).sent = p.sent ∧
        (stepLoop p e).pollsInFlight ≤ p.pollsInFlight := by
      cases e with
      | tick =>
        have ht : stepLoop p .tick = p := by simp [stepLoop, tick, h]
        rw [ht]
        exact ⟨h, rfl, Nat.le_refl _⟩
      | settle outcome =>
        simp only [stepLoop, settlePoll]
        split
        · exact ⟨h, rfl, Nat.sub_le _ _⟩
        · exact ⟨h, rfl, Nat.le_refl _⟩
      | unmount => exact ⟨rfl, rfl, Nat.le_refl _⟩
    obtain ⟨h1, h2, h3⟩ := ih (stepLoop p e) hstep.1
    rw [hrun]
    exact ⟨h1, h2.trans hstep.2.1, Nat.le_trans h3 hstep.2.2⟩

/-- C22, as stated, fails: a tick that arrives right after mount, while the
first poll is still in flight, is not skipped, and two polls are in flight. -/
theorem overlapping_polls_counterexample :
    (tick mount).pollsInFlight = 2 ∧ ¬ NoOverlappingPolls (tick mount) := by
  refine ⟨rfl, ?_⟩
  unfold NoOverlappingPolls
  decide

/-- C22, amended: the poll loop has no guard against overlap. Mount starts one
poll (and one fetch of the templates) and installs the interval; while the
interval is installed every tick hands one more `GET /api/containers` to
`fetch`, whatever number of polls is in flight, so `n` ticks after mount with
no poll settled leave `n + 1` polls in flight; once the interval is cleared on
unmount, no event starts a poll any more. -/
theorem poll_loop_never_skips :
    (mount.pollsInFlight = 1 ∧ mount.intervalActive = true ∧
        mount.sent = [{ method := .GET, path := "/api/containers" },
                      { method := .GET, path := "/api/templates" }]) ∧
      (∀ (p : PollLoop), p.intervalActive = true →
        (tick p).pollsInFlight = p.pollsInFlight + 1 ∧
        (tick p).sent = p.sent ++ [{ method := .GET, path := "/api/containers" }] ∧
        (tick p).state = p.state ∧ (tick p).intervalActive = true) ∧
      (∀ n : Nat,
        (runLoop mount (List.replicate n .tick)).pollsInFlight = n + 1 ∧
        (runLoop mount (List.replicate n .tick)).sent =
          mount.sent ++ List.replicate n { method := .GET, path := "/api/containers" }) ∧
      (∀ (p : PollLoop) (events : List LoopEvent),
        (runLoop (unmount p) events).intervalActive = false ∧
        (runLoop (unmount p) events).sent = p.sent ∧
        (runLoop (unmount p) events).pollsInFlight ≤ p.pollsInFlight) := by
  refine ⟨⟨rfl, rfl, rfl⟩, ?_, ?_, ?_⟩
  · intro p h
    unfold tick
    rw [if_pos h]
    exact ⟨rfl, rfl, rfl, h⟩
  · intro n
    obtain ⟨h1, h2, _⟩ := runLoop_ticks n mount rfl
    exact ⟨by rw [h1]; exact Nat.add_comm _ _, h2⟩
  · intro p events
    exact runLoop_cleared events (unmount p) rfl

/-- C22, amended, on two ticks after mount with no poll settled, followed by
unmount and another tick. -/
theorem poll_loop_never_skips_witness :
    (tick mount).intervalActive = true ∧ (tick (tick mount)).pollsInFlight = 3 ∧
      (runLoop (unmount (tick (tick mount))) [.tick]).sent = (tick (tick mount)).sent :=
  ⟨by decide,
    ((poll_loop_never_skips.2.1 (tick mount) (by decide)).1).trans (by decide),
    (poll_loop_never_skips.2.2.2 (tick (tick mount)) [.tick]).2.1⟩

/-- C23, as stated, fails: with logs and details cached for `c1`, at the time a
refresh is requested the cached entries are still there. -/
theorem refresh_invalidates_counterexample :
    objRead (fetchContainerLogsStart exCached "c1full").1.containerLogs "c1full" =
        .own (.str "old") ∧
      objRead (fetchContainerDetailsStart exCached "c1full").1.containerDetails
        "c1full" = .own (.details (.object "old")) := by
  decide

/-- C23, amended: requesting a refresh of the logs (details) of a container
hands `GET /api/containers/{id}/logs` (`.../inspect`) to `fetch` and leaves the
whole state, the cached entry included, as it is. When the request settles,
the entry of that container becomes: on a 2xx response the `logs` (`details`)
property of the body; on another response the text "Error: " followed by the
`error` property (the object holding the `error` property); when no response
or no JSON body is obtained the text "Failed to fetch logs" (the object holding
"Failed to fetch details"). The entries of the other containers and the other
cells of the state are kept. -/
theorem refresh_keeps_cache_until_settled (st : DashboardState) (containerID : String) :
    (fetchContainerLogsStart st containerID =
        (st, { method := .GET, path := "/api/containers/" ++ containerID ++ "/logs" }) ∧
      fetchContainerDetailsStart st containerID =
        (st, { method := .GET,
               path := "/api/containers/" ++ containerID ++ "/inspect" })) ∧
      (∀ data, objGet (fetchContainerLogs st containerID
          (.response true data)).containerLogs containerID = some (getProp data.logs)) ∧
      (∀ data, objGet (fetchContainerLogs st containerID
          (.response false data)).containerLogs containerID =
          some (.str ("Error: " ++ interpolate data.error))) ∧
      (objGet (fetchContainerLogs st containerID .fetchRejected).containerLogs
          containerID = some (.str "Failed to fetch logs")) ∧
      (∀ ok, objGet (fetchContainerLogs st containerID (.jsonRejected ok)).containerLogs
          containerID = some (.str "Failed to fetch logs")) ∧
      (∀ outcome, ∀ k, k ≠ containerID →
        objGet (fetchContainerLogs st containerID outcome).containerLogs k =
          objGet st.containerLogs k) ∧
      (∀ outcome, fetchContainerLogs st containerID outcome =
        { st with containerLogs :=
            (fetchContainerLogs st containerID outcome).containerLogs }) ∧
      (∀ data, objGet (fetchContainerDetails st containerID
          (.response true data)).containerDetails containerID =
          some (.details data.details)) ∧
      (∀ data, objGet (fetchContainerDetails st containerID
          (.response false data)).containerDetails containerID =
          some (.error (getProp data.error))) ∧
      (objGet (fetchContainerDetails st containerID .fetchRejected).containerDetails
          containerID = some (.error (.str "Failed to fetch details"))) ∧
      (∀ ok, objGet (fetchContainerDetails st containerID
          (.jsonRejected ok)).containerDetails containerID =
          some (.error (.str "Failed to fetch details"))) ∧
      (∀ outcome, ∀ k, k ≠ containerID →
        objGet (fetchContainerDetails st containerID outcome).containerDetails k =
          objGet st.containerDetails k) ∧
      (∀ outcome, fetchContainerDetails st containerID outcome =
        { st with containerDetails :=
            (fetchContainerDetails st containerID outcome).containerDetails }) := by
  refine ⟨⟨rfl, rfl⟩, ?_, ?_, ?_, ?_, ?_, ?_, ?_, ?_, ?_, ?_, ?_, ?_⟩
  · intro data
    simp only [fetchContainerLogs, if_true, objGet_objSet]
  · intro data
    simp [fetchContainerLogs, objGet_objSet]
  · simp [fetchContainerLogs, objGet_objSet]
  · intro ok
    simp [fetchContainerLogs, objGet_objSet]
  · intro outcome k hk
    obtain ⟨v, hv⟩ := fetchContainerLogs_cache st containerID outcome
    rw [hv, objGet_objSet, if_neg hk]
  · intro outcome
    rcases outcome with _ | ok | ⟨ok, data⟩
    · rfl
    · rfl
    · cases ok <;> rfl
  · intro data
    simp only [fetchContainerDetails, if_true, objGet_objSet]
  · intro data
    simp [fetchContainerDetails, objGet_objSet]
  · simp [fetchContainerDetails, objGet_objSet]
  · intro ok
    simp [fetchContainerDetails, objGet_objSet]
  · intro outcome k hk
    obtain ⟨v, hv⟩ := fetchContainerDetails_cache st containerID outcome
    rw [hv, objGet_objSet, if_neg hk]
  · intro outcome
    rcases outcome with _ | ok | ⟨ok, data⟩
    · rfl
    · rfl
    · cases ok <;> rfl

/-- C23, amended, on the cached logs of `c1`: the entry of another container
is kept, and after the refresh settles with new logs the entry holds them. -/
theorem refresh_keeps_cache_until_settled_witness :
    "c2full" ≠ "c1full" ∧
      objGet (fetchContainerLogs exCached "c1full"
        (.response true { logs := some "new", error := none })).containerLogs "c2full" =
        objGet exCached.containerLogs "c2full" ∧
      objGet (fetchContainerLogs exCached "c1full"
        (.response true { logs := some "new", error := none })).containerLogs "c1full" =
        some (.str "new") :=
  ⟨by decide,
    (refresh_keeps_cache_until_settled exCached "c1full").2.2.2.2.2.1
      (.response true { logs := some "new", error := none }) "c2full" (by decide),
    (refresh_keeps_cache_until_settled exCached "c1full").2.1
      { logs := some "new", error := none }⟩

theorem mem_setAdd_iff (set : List String) (x y : String) :
    y ∈ setAdd set x ↔ y ∈ set ∨ y = x := by
  unfold setAdd setHas
  split
  · rename_i h
    have hx : x ∈ set := by simpa using h
    constructor
    · exact Or.inl
    · rintro (h1 | h1)
      · exact h1
      · rw [h1]; exact hx
  · simp

theorem nodup_setAdd (set : List String) (x : String) (h : set.Nodup) :
    (setAdd set x).Nodup := by
  unfold setAdd setHas
  split
  · exact h
  · rename_i hx
    have hx1 : x ∉ set := by simpa using hx
    rw [List.nodup_append]
    exact ⟨h, List.nodup_singleton x, by
      intro a ha hb
      rw [List.mem_singleton] at hb
      exact hx1 (hb ▸ ha)⟩

theorem foldl_setAdd_spec (xs acc : List String) (hacc : acc.Nodup) :
    (xs.foldl setAdd acc).Nodup ∧ ∀ y, y ∈ xs.foldl setAdd acc ↔ y ∈ acc ∨ y ∈ xs := by
  induction xs generalizing acc with
  | nil => exact ⟨hacc, fun y => by simp⟩
  | cons x xs ih =>
    obtain ⟨h1, h2⟩ := ih (setAdd acc x) (nodup_setAdd acc x hacc)
    refine ⟨h1, fun y => ?_⟩
    rw [List.foldl_cons, h2, mem_setAdd_iff, List.mem_cons, or_assoc]

theorem setFrom_spec (xs : List String) :
    (setFrom xs).Nodup ∧ ∀ y, y ∈ setFrom xs ↔ y ∈ xs := by
  obtain ⟨h1, h2⟩ := foldl_setAdd_spec xs [] List.nodup_nil
  exact ⟨h1, fun y => by rw [setFrom, h2]; simp⟩

theorem currentFiltered_eq (toLowerCase : String → String) (st : DashboardState) :
    currentFiltered toLowerCase st = .ok (visibleContainers toLowerCase st) := by
  unfold currentFiltered visibleContainers
  exact filteredContainers_eq_filter _ _ _ _ _

/-- C24: `selectAllContainers` empties the selection when its size equals the
number of filtered containers, and otherwise makes it exactly the set of the
`full_id`s of the filtered containers; so a selected id that the filter hides
is dropped in both cases, and a selection of the same size as the filtered
list is cleared whatever ids it holds. Nothing else in the state changes. -/
theorem selectAllContainers_spec (toLowerCase : String → String)
    (st : DashboardState) :
    currentFiltered toLowerCase st = .ok (visibleContainers toLowerCase st) ∧
      selectAllContainers toLowerCase st =
        .ok { st with selectedContainers :=
                if st.selectedContainers.length =
                    (visibleContainers toLowerCase st).length then []
                else setFrom (keys (visibleContainers toLowerCase st)) } ∧
      (setFrom (keys (visibleContainers toLowerCase st))).Nodup ∧
      (∀ y, y ∈ setFrom (keys (visibleContainers toLowerCase st)) ↔
        y ∈ keys (visibleContainers toLowerCase st)) ∧
      (∀ st1, selectAllContainers toLowerCase st = .ok st1 →
        ∀ x ∈ st.selectedContainers, x ∉ keys (visibleContainers toLowerCase st) →
          x ∉ st1.selectedContainers) := by
  have hsel : selectAllContainers toLowerCase st =
      .ok { st with selectedContainers :=
              if st.selectedContainers.length =
                  (visibleContainers toLowerCase st).length then []
              else setFrom (keys (visibleContainers toLowerCase st)) } := by
    unfold selectAllContainers
    rw [currentFiltered_eq]
    by_cases h : st.selectedContainers.length = (visibleContainers toLowerCase st).length
    · simp [h, bind, Except.bind, pure, Except.pure]
    · simp [h, bind, Except.bind, pure, Except.pure, keys]
  refine ⟨currentFiltered_eq toLowerCase st, hsel, (setFrom_spec _).1, (setFrom_spec _).2, ?_⟩
  intro st1 h1 x _ hx hx1
  rw [hsel] at h1
  cases h1
  dsimp only at hx1
  split at hx1
  · cases hx1
  · exact hx ((setFrom_spec _).2 x |>.1 hx1)

/-- C24 on a selection `{c1}` hidden by the search term while the filtered list
is `[c2]`: the sizes agree, so the selection is cleared, not replaced. -/
theorem selectAllContainers_spec_witness :
    selectAllContainers asciiLower exHidden = .ok { exHidden with selectedContainers := [] } ∧
      "c1full" ∉ keys (visibleContainers asciiLower exHidden) ∧
      "c1full" ∉ ({ exHidden with selectedContainers := [] } : DashboardState).selectedContainers :=
  have hrun : selectAllContainers asciiLower exHidden =
      .ok { exHidden with selectedContainers := [] } := by decide
  have hhid : "c1full" ∉ keys (visibleContainers asciiLower exHidden) := by decide
  ⟨hrun, hhid,
    (selectAllContainers_spec asciiLower exHidden).2.2.2.2 _ hrun "c1full" (by decide) hhid⟩

theorem toString_mem (n : Nat) (c : Char) (h : c ∈ (toString n).data) :
    c ∈ ['0', '1', '2', '3', '4', '5', '6', '7', '8', '9'] := by
  have h1 : (toString n).data = Nat.toDigitsCore 10 (n + 1) n [] := rfl
  rw [h1] at h
  rcases toDigitsCore_mem_digits _ _ _ _ h with h2 | h2
  · cases h2
  · exact h2

theorem bulk_message_chars (a : LifecycleAction) (n : Nat) (c : Char)
    (h : c ∈ ("Bulk " ++ a.name ++ " completed for " ++ toString n ++ " containers").data) :
    c ≠ 'y' ∧ c ≠ 'h' := by
  simp only [String.data_append, List.mem_append] at h
  rcases h with (((h | h) | h) | h) | h
  · revert c; decide
  · cases a <;> revert c <;> decide
  · revert c; decide
  · have h1 := toString_mem n c h
    clear h
    revert c; decide
  · revert c; decide

theorem bulk_message_not_success (a : LifecycleAction) (n : Nat) :
    ¬ SubstringOf "successfully"
        ("Bulk " ++ a.name ++ " completed for " ++ toString n ++ " containers") ∧
      ¬ SubstringOf "launched"
        ("Bulk " ++ a.name ++ " completed for " ++ toString n ++ " containers") := by
  constructor
  · intro h
    have hy : 'y' ∈ "successfully".data := by decide
    exact (bulk_message_chars a n 'y' (List.IsInfix.subset h hy)).1 rfl
  · intro h
    have hh : 'h' ∈ "launched".data := by decide
    exact (bulk_message_chars a n 'h' (List.IsInfix.subset h hh)).2 rfl

theorem success_message_banner (st : DashboardState) (containerID : String)
    (a : LifecycleAction) (data : ResponseData) :
    bannerIsSuccess
      (clickAction st containerID a true (.response true data)).state.message = true := by
  have h : SubstringOf "successfully"
      (clickAction st containerID a true (.response true data)).state.message := by
    cases a
    · exact ⟨("Container " ++ "start" ++ "ed ").data, [], by
        simp [clickAction, controlContainer, String.data_append]⟩
    · exact ⟨("Container " ++ "stop" ++ "ed ").data, [], by
        simp [clickAction, controlContainer, String.data_append]⟩
    · exact ⟨("Container " ++ "restart" ++ "ed ").data, [], by
        simp [clickAction, controlContainer, String.data_append]⟩
    · exact ⟨("Container " ++ substring12 containerID ++ " deleted ").data, [], by
        simp [clickAction, deleteContainer, String.data_append]⟩
  unfold bannerIsSuccess
  rw [(includes_iff _ _).2 h]
  rfl

theorem bannerShown_append (p q : String) (hq : q ≠ "") : bannerShown (p ++ q) = true := by
  have h : (p ++ q).data ≠ [] := by
    rw [String.data_append]
    intro h1
    exact hq (String.ext (List.append_eq_nil.1 h1).2)
  cases hd : (p ++ q).data with
  | nil => exact absurd hd h
  | cons c cs => simp [bannerShown, JsVal.toBoolean, hd]

/-- C25: for each of the four actions and every selection size `n`, the
message that `handleBulkAction` sets on completion is "Bulk <action> completed
for <n> containers"; it is not empty, so the banner is rendered, and it
contains neither "successfully" nor "launched", so the banner test fails and
the banner has the failure style; the message of every successful
single-container action is rendered too and passes the banner test, so it has
the success style. -/
theorem bulk_message_failure_style (st : DashboardState) (a : LifecycleAction)
    (outcomeOf : Request → FetchOutcome) (hsel : st.selectedContainers ≠ [])
    (ha : st.bulkAction = a.name)
    (hall : ∀ id ∈ st.selectedContainers,
      outcomeOf (bulkRequest a.name id) ≠ .fetchRejected) :
    (handleBulkAction st true fun r => fetchFulfils (outcomeOf r)).state.message =
        "Bulk " ++ a.name ++ " completed for " ++
          toString st.selectedContainers.length ++ " containers" ∧
      bannerShown
        (handleBulkAction st true fun r => fetchFulfils (outcomeOf r)).state.message =
        true ∧
      ¬ SubstringOf "successfully"
        (handleBulkAction st true fun r => fetchFulfils (outcomeOf r)).state.message ∧
      ¬ SubstringOf "launched"
        (handleBulkAction st true fun r => fetchFulfils (outcomeOf r)).state.message ∧
      bannerIsSuccess
        (handleBulkAction st true fun r => fetchFulfils (outcomeOf r)).state.message =
        false ∧
      ∀ (st1 : DashboardState) (containerID : String) (b : LifecycleAction)
        (data : ResponseData),
        bannerShown
          (clickAction st1 containerID b true (.response true data)).state.message =
          true ∧
        bannerIsSuccess
          (clickAction st1 containerID b true (.response true data)).state.message =
          true := by
  have hmsg : (handleBulkAction st true fun r => fetchFulfils (outcomeOf r)).state.message =
      "Bulk " ++ a.name ++ " completed for " ++
        toString st.selectedContainers.length ++ " containers" := by
    rw [handleBulkAction_dispatch st _ hsel (ha ▸ name_ne_empty a), ha,
      if_pos ((all_fulfil_iff _ _ _).2 hall)]
  rw [hmsg]
  obtain ⟨h1, h2⟩ := bulk_message_not_success a st.selectedContainers.length
  refine ⟨rfl, bannerShown_append _ _ (by decide), h1, h2, ?_, ?_⟩
  · unfold bannerIsSuccess
    rw [Bool.or_eq_false_iff]
    constructor
    · rw [Bool.eq_false_iff]
      exact fun h => h1 ((includes_iff _ _).1 h)
    · rw [Bool.eq_false_iff]
      exact fun h => h2 ((includes_iff _ _).1 h)
  · intro st1 containerID b data
    refine ⟨?_, success_message_banner st1 containerID b data⟩
    cases b
    · exact bannerShown_append _ _ (by decide)
    · exact bannerShown_append _ _ (by decide)
    · exact bannerShown_append _ _ (by decide)
    · exact bannerShown_append _ _ (by decide)

/-- C25 on `{a, b}` with "delete", `b` answered with a 500. -/
theorem bulk_message_failure_style_witness :
    exBulk.selectedContainers ≠ [] ∧ exBulk.bulkAction = LifecycleAction.delete.name ∧
      (∀ id ∈ exBulk.selectedContainers,
        exBackendFailure (bulkRequest LifecycleAction.delete.name id) ≠ .fetchRejected) ∧
      bannerShown
        (handleBulkAction exBulk true
          fun r => fetchFulfils (exBackendFailure r)).state.message = true ∧
      bannerIsSuccess
        (handleBulkAction exBulk true
          fun r => fetchFulfils (exBackendFailure r)).state.message = false :=
  have hsel : exBulk.selectedContainers ≠ [] := by decide
  have hall : ∀ id ∈ exBulk.selectedContainers,
      exBackendFailure (bulkRequest LifecycleAction.delete.name id) ≠ .fetchRejected := by
    decide
  ⟨hsel, rfl, hall,
    (bulk_message_failure_style exBulk .delete exBackendFailure hsel rfl hall).2.1,
    (bulk_message_failure_style exBulk .delete exBackendFailure hsel rfl hall).2.2.2.2.1⟩

theorem objRead_objSet {α : Type} (obj : List (String × α)) (key k : String) (v : α) :
    objRead (objSet obj key v) k = if k = key then .own v else objRead obj k := by
  unfold objRead
  rw [objGet_objSet]
  by_cases hk : k = key
  · rw [if_pos hk, if_pos hk]
  · rw [if_neg hk, if_neg hk]

theorem isShown_objSet (obj : List (String × Bool)) (key k : String) (v : Bool) :
    isShown (objSet obj key v) k = if k = key then v else isShown obj k := by
  unfold isShown
  rw [objRead_objSet]
  by_cases hk : k = key
  · rw [if_pos hk, if_pos hk]
  · rw [if_neg hk, if_neg hk]

theorem str_toBoolean_false_iff (s : String) :
    (JsVal.str s).toBoolean = false ↔ s = "" := by
  simp only [JsVal.toBoolean, Bool.not_eq_false_eq_eq_true, List.isEmpty_iff]
  constructor
  · intro h
    exact String.ext h
  · intro h
    rw [h]

theorem cachedLogsTruthy_false_iff (st : DashboardState) (containerID : String)
    (hlogs : ∀ b, objRead st.containerLogs containerID ≠ .own (.bool b)) :
    cachedLogsTruthy st containerID = false ↔
      (objRead st.containerLogs containerID = .undefined ∨
        objRead st.containerLogs containerID = .own .undefined ∨
        objRead st.containerLogs containerID = .own (.str "")) := by
  unfold cachedLogsTruthy
  cases h : objRead st.containerLogs containerID with
  | own v =>
    cases v with
    | undefined => simp [JsVal.toBoolean]
    | bool b => exact absurd h (hlogs b)
    | str s => simp [str_toBoolean_false_iff]
  | inherited => simp
  | undefined => simp

theorem cachedDetailsTruthy_false_iff (st : DashboardState) (containerID : String) :
    cachedDetailsTruthy st containerID = false ↔
      (objRead st.containerDetails containerID = .undefined ∨
        ∃ v, objRead st.containerDetails containerID = .own (.details (.prim v)) ∧
          (v = .undefined ∨ v = .bool false ∨ v = .str "")) := by
  unfold cachedDetailsTruthy
  cases h : objRead st.containerDetails containerID with
  | own d =>
    cases d with
    | details j =>
      cases j with
      | prim v =>
        cases v with
        | undefined => simp [JsonVal.toBoolean, JsVal.toBoolean]
        | bool b => cases b <;> simp [JsonVal.toBoolean, JsVal.toBoolean]
        | str s => simp [JsonVal.toBoolean, str_toBoolean_false_iff]
      | object t => simp [JsonVal.toBoolean]
    | error m => simp
  | inherited => simp
  | undefined => simp

/-- C26: `toggleLogs` flips whether the logs panel of the container is shown,
leaves what `showLogs` reads for every other container and every other cell of
the state as it is, so toggling twice gives back the shown state of every
container; it requests the logs exactly when the panel becomes shown and
`containerLogs[id]` is absent (`undefined`) or the empty string, so a
container whose fetched logs are the empty string is fetched again when its
panel is opened and the panel reads "Loading logs...". `toggleDetails` does
the same on `showDetails`, requesting the details exactly when the panel
becomes shown and `containerDetails[id]` is absent or holds a falsy `details`
value. -/
theorem toggle_panels_spec (st : DashboardState) (containerID : String)
    (hlogs : ∀ b, objRead st.containerLogs containerID ≠ .own (.bool b)) :
    (isShown (toggleLogs st containerID).state.showLogs containerID =
        !(isShown st.showLogs containerID)) ∧
      (∀ k, k ≠ containerID →
        objRead (toggleLogs st containerID).state.showLogs k = objRead st.showLogs k) ∧
      (toggleLogs st containerID).state =
        { st with showLogs := (toggleLogs st containerID).state.showLogs } ∧
      (∀ k, isShown (toggleLogs (toggleLogs st containerID).state
          containerID).state.showLogs k = isShown st.showLogs k) ∧
      ((toggleLogs st containerID).fetches = true ↔
        isShown (toggleLogs st containerID).state.showLogs containerID = true ∧
          (objRead st.containerLogs containerID = .undefined ∨
            objRead st.containerLogs containerID = .own .undefined ∨
            objRead st.containerLogs containerID = .own (.str ""))) ∧
      (objRead st.containerLogs containerID = .own (.str "") →
        isShown st.showLogs containerID = false →
        (toggleLogs st containerID).fetches = true ∧
          logsPanelText (toggleLogs st containerID).state containerID =
            some "Loading logs...") ∧
      (isShown (toggleDetails st containerID).state.showDetails containerID =
        !(isShown st.showDetails containerID)) ∧
      (∀ k, k ≠ containerID →
        objRead (toggleDetails st containerID).state.showDetails k =
          objRead st.showDetails k) ∧
      (toggleDetails st containerID).state =
        { st with showDetails := (toggleDetails st containerID).state.showDetails } ∧
      (∀ k, isShown (toggleDetails (toggleDetails st containerID).state
          containerID).state.showDetails k = isShown st.showDetails k) ∧
      ((toggleDetails st containerID).fetches = true ↔
        isShown (toggleDetails st containerID).state.showDetails containerID = true ∧
          (objRead st.containerDetails containerID = .undefined ∨
            ∃ v, objRead st.containerDetails containerID = .own (.details (.prim v)) ∧
              (v = .undefined ∨ v = .bool false ∨ v = .str ""))) := by
  refine ⟨?_, ?_, rfl, ?_, ?_, ?_, ?_, ?_, rfl, ?_, ?_⟩
  · simp [toggleLogs, isShown_objSet]
  · intro k hk
    simp [toggleLogs, objRead_objSet, hk]
  · intro k
    by_cases hk : k = containerID
    · simp [toggleLogs, isShown_objSet, hk]
    · simp [toggleLogs, isShown_objSet, hk]
  · rw [← cachedLogsTruthy_false_iff st containerID hlogs]
    simp [toggleLogs, isShown_objSet]
  · intro hc hs
    constructor
    · have h1 : cachedLogsTruthy st containerID = false := by
        simp [cachedLogsTruthy, hc, JsVal.toBoolean]
      simp [toggleLogs, isShown_objSet, hs, h1]
    · have h2 : objRead (toggleLogs st containerID).state.containerLogs containerID =
          .own (.str "") := hc
      simp [logsPanelText, h2, JsVal.toBoolean]
  · simp [toggleDetails, isShown_objSet]
  · intro k hk
    simp [toggleDetails, objRead_objSet, hk]
  · intro k
    by_cases hk : k = containerID
    · simp [toggleDetails, isShown_objSet, hk]
    · simp [toggleDetails, isShown_objSet, hk]
  · rw [← cachedDetailsTruthy_false_iff st containerID]
    simp [toggleDetails, isShown_objSet]

/-- C26 on a container whose fetched logs are the empty string: opening its
panel requests the logs again and the panel reads "Loading logs...". -/
theorem toggle_panels_spec_witness :
    (∀ b, objRead exEmptyLogs.containerLogs "c1full" ≠ .own (.bool b)) ∧
      objRead exEmptyLogs.containerLogs "c1full" = .own (.str "") ∧
      isShown exEmptyLogs.showLogs "c1full" = false ∧
      (toggleLogs exEmptyLogs "c1full").fetches = true ∧
      logsPanelText (toggleLogs exEmptyLogs "c1full").state "c1full" =
        some "Loading logs..." :=
  have hlogs : ∀ b, objRead exEmptyLogs.containerLogs "c1full" ≠ .own (.bool b) := by
    intro b h
    have h1 : objRead exEmptyLogs.containerLogs "c1full" = .own (.str "") := by decide
    rw [h1] at h
    cases h
  ⟨hlogs, by decide, by decide,
    (toggle_panels_spec exEmptyLogs "c1full" hlogs).2.2.2.2.2.1 (by decide) (by decide)⟩

end Dashboard
